import Mathlib

/-!
# Verification of the fxoanda zone-based trading pipeline

Shallow embedding of the signal-generation core of the repository
(`streamlit_app/strategy_modules` and `streamlit_app/zone_based_strategy`)
over exact rational arithmetic, together with proofs and refutations of the
specification's claims.

Conventions of the embedding:
* Python/pandas floats are modelled by `ℚ`.  Places where IEEE semantics
  (NaN/inf) observably differ from rational arithmetic are modelled
  explicitly and documented at the definition site.
* A pandas `DataFrame` of candles with the derived moving-average columns
  attached is a `List Row`, index 0 oldest, `iloc[-1]` the last element.
* Python dictionaries keyed by zone name are association lists
  `List (String × Zone)`, preserving insertion order.
* Functions that can raise in Python are embedded in `Except String`;
  the message of an "unknown method" `ValueError` always starts with
  `"Unknown"`, all other modelled exceptions start with the Python
  exception class name.
-/

/-- Truncation towards zero, the behaviour of Python's `int()` on a float. -/
def pyInt (q : ℚ) : ℤ := if 0 ≤ q then ⌊q⌋ else ⌈q⌉

/-- Auxiliary: does `pat` occur as a contiguous sublist at some position? -/
def strContainsAux (pat : List Char) : List Char → Bool
  | [] => pat.isPrefixOf ([] : List Char)
  | c :: cs => pat.isPrefixOf (c :: cs) || strContainsAux pat cs

/-- Python's substring test `pat in s`. -/
def strContains (s pat : String) : Bool := strContainsAux pat.data s.data

/-- Replace every occurrence of `pat` (assumed nonempty at all use sites)
by `rep`, scanning left to right — Python's `str.replace`.  The fuel
argument (instantiated with the input length) only makes the recursion
structural; one character or one match is consumed per step, so the fuel
never runs out. -/
def pyReplaceAux (pat rep : List Char) : Nat → List Char → List Char
  | _, [] => []
  | 0, rest => rest
  | fuel + 1, c :: cs =>
    if pat.isPrefixOf (c :: cs) ∧ pat ≠ [] then
      rep ++ pyReplaceAux pat rep fuel (cs.drop (pat.length - 1))
    else c :: pyReplaceAux pat rep fuel cs

/-- Python's `s.replace(pat, rep)`. -/
def pyReplace (s pat rep : String) : String :=
  ⟨pyReplaceAux pat.data rep.data s.data.length s.data⟩

/-- Python's `df.tail(n)`: the last `n` elements (all of them if fewer). -/
def tailN (n : Nat) (xs : List α) : List α := xs.drop (xs.length - n)

/-- Sum of a list of rationals. -/
def qsum (xs : List ℚ) : ℚ := xs.foldr (· + ·) 0

/-- Arithmetic mean of a list of rationals (0 on the empty list; every use
site is guarded so the empty case is never reached). -/
def qmean (xs : List ℚ) : ℚ := qsum xs / xs.length

/-- One candle of a `CandleSeries`, including the derived moving-average
columns `fast_ma`, `slow_ma`, `trend_ma` that the pipeline attaches before
any stage runs (`TechnicalAnalysis.add_moving_averages`). -/
structure Row where
  open_ : ℚ
  high : ℚ
  low : ℚ
  close : ℚ
  volume : ℚ
  fast_ma : ℚ
  slow_ma : ℚ
  trend_ma : ℚ
deriving Repr, DecidableEq, Inhabited

/-- `df.iloc[-1]` under a nonemptiness guard (used only where the source
has already checked the length, so the default is never produced). -/
def lastD (df : List Row) : Row := df.getLast?.getD default

/-! ## trading_config.py

Module-level constants.  `trading_config.py` calls
`use_aggressive_settings()` at import time (line 269), so the effective
values of the preset-controlled settings are the aggressive ones
(`MIN_CONFLUENCE_CONFIRMATIONS = 1`, `ATR_ZONE_MULTIPLIER = 0.5`, ...). -/

def ZONE_WIDTH_PIPS : ℚ := 15
def MIN_ZONE_TOUCHES : Nat := 2
def WICK_REJECTION_RATIO : ℚ := 2
def RISK_REWARD_RATIO : ℚ := 17/10
def PULLBACK_LOOKBACK : Nat := 10
/- `BREAKOUT_LOOKBACK` is assigned twice in trading_config.py (20 on line 66,
then 10 on line 197); the later module-level assignment wins, so every
consumer — the entry-timing guard included — sees 10. -/
def BREAKOUT_LOOKBACK : Nat := 10
def MIN_CONFLUENCE_CONFIRMATIONS : Nat := 1
def VOLUME_CONFIRMATION_MULTIPLIER : ℚ := 13/10
def SLOPE_LOOKBACK : Nat := 20
def SLOPE_FAST_PERIOD : Nat := 5
def SLOPE_SLOW_PERIOD : Nat := 10
def SLOPE_TREND_PERIOD : Nat := 15
def SLOPE_PRICE_PERIOD : Nat := 8
def SLOPE_THRESHOLD : ℚ := 1/100
def STRUCTURE_LOOKBACK : Nat := 50
def SWING_DETECTION_PERIOD : Nat := 5
def MAX_SWING_POINTS : Nat := 10
def MOMENTUM_LOOKBACK : Nat := 30
def ROC_PERIOD : Nat := 10
def RSI_PERIOD : Nat := 14
def MOMENTUM_PERIOD : Nat := 12
def ROC_BULLISH_THRESHOLD : ℚ := 2
def ROC_BEARISH_THRESHOLD : ℚ := -2
def MOMENTUM_THRESHOLD : ℚ := 1/2
def MTF_BULLISH_THRESHOLD : ℚ := 3/10
def MTF_BEARISH_THRESHOLD : ℚ := -3/10
def MTF_STRONG_THRESHOLD : ℚ := 6/10
def ATR_PERIOD : Nat := 14
def ATR_ZONE_MULTIPLIER : ℚ := 1/2
def VOLATILITY_LOOKBACK : Nat := 30
def HIGH_VOLATILITY_MULTIPLIER : ℚ := 12/10
def LOW_VOLATILITY_MULTIPLIER : ℚ := 6/10
def NORMAL_VOLATILITY_MULTIPLIER : ℚ := 8/10
def STRONG_TREND_ZONE_MULTIPLIER : ℚ := 7/10
def MEDIUM_TREND_ZONE_MULTIPLIER : ℚ := 9/10
def WEAK_TREND_ZONE_MULTIPLIER : ℚ := 12/10
def MARKET_CONDITION_LOOKBACK : Nat := 40
def TRENDING_MARKET_MULTIPLIER : ℚ := 8/10
def RANGING_MARKET_MULTIPLIER : ℚ := 13/10
def MIXED_MARKET_MULTIPLIER : ℚ := 1
def TRENDING_EFFICIENCY_THRESHOLD : ℚ := 6/10
def RANGING_EFFICIENCY_THRESHOLD : ℚ := 3/10
def TRENDING_R_SQUARED_THRESHOLD : ℚ := 1/2
def ZONE_METADATA_LOOKBACK : Nat := 20
def MIN_CANDLES_FOR_PATTERNS : Nat := 5
def DOJI_BODY_RATIO : ℚ := 1/10
def HAMMER_WICK_RATIO : ℚ := 2
def HAMMER_UPPER_WICK_RATIO : ℚ := 1/2
def SHOOTING_STAR_WICK_RATIO : ℚ := 2
def SHOOTING_STAR_LOWER_WICK_RATIO : ℚ := 1/2
def MARUBOZU_BODY_RATIO : ℚ := 9/10
def ENGULFING_SIZE_RATIO : ℚ := 12/10
def PIN_BAR_WICK_RATIO : ℚ := 6/10
def PIN_BAR_OPPOSITE_WICK_RATIO : ℚ := 2/10
def PIN_BAR_BODY_RATIO : ℚ := 3/10
def STAR_BODY_RATIO : ℚ := 3/10
def REVERSAL_PATTERN_LOOKBACK : Nat := 5
def CONTINUATION_PATTERN_LOOKBACK : Nat := 10
def MOMENTUM_PATTERN_LOOKBACK : Nat := 8
def FLAG_PATTERN_MIN_CANDLES : Nat := 5
def FLAG_CONSOLIDATION_RATIO : ℚ := 4/10
def FLAG_TREND_THRESHOLD : ℚ := 2/100
def BREAKOUT_THRESHOLD : ℚ := 5/1000
def STRONG_CLOSE_THRESHOLD : ℚ := 8/10
def MIN_GAP_SIZE : ℚ := 2/1000
def VOLUME_PATTERN_LOOKBACK : Nat := 10
def HIGH_VOLUME_MULTIPLIER : ℚ := 2
def DIVERGENCE_LOOKBACK : Nat := 15
def MOMENTUM_DIVERGENCE_THRESHOLD : ℚ := 1/100
def ZONE_CONTEXT_BONUS : ℤ := 15
def TREND_ALIGNMENT_BONUS : ℤ := 10
def ZONE_PROXIMITY_RATIO : ℚ := 1/2
def MIN_CONFLUENCE_PATTERNS : Nat := 2
def MULTIPLE_CONFLUENCE_BONUS : ℤ := 5
def TREND_MA_PERIOD : Nat := 200
def PIP_VALUE : ℚ := 1/10000

/-! ## Shared indicator code (technical_analysis.py / dynamic_zones.py)

`calculate_atr`: `TR = max(high-low, |high-prev_close|, |low-prev_close|)`
(the first row has no previous close; pandas' row-wise `max` skips the NaN
entries, leaving `high-low`), then a trailing simple `rolling(period)`
mean.  The last value of that series is defined iff `len(df) ≥ period`. -/

/-- True ranges of all rows after the first, threaded with the previous
row's close. -/
def trGo : Row → List Row → List ℚ
  | _, [] => []
  | prev, r :: rest =>
      max (max (r.high - r.low) |r.high - prev.close|) |r.low - prev.close| ::
        trGo r rest

/-- The true-range series of a candle list (same length as the input). -/
def trList : List Row → List ℚ
  | [] => []
  | r :: rest => (r.high - r.low) :: trGo r rest

/-- `calculate_atr(df, period).iloc[-1]`, i.e. the mean of the last
`period` true ranges; `none` models the NaN produced when
`len(df) < period`. -/
def atrLast (df : List Row) (period : Nat) : Option ℚ :=
  if df.length < period then none
  else some (qmean (tailN period (trList df)))

/-- The value of `atrLast` under a length guard (only used where the
source has already checked `len(df) ≥ period`). -/
def atrLastVal (df : List Row) (period : Nat) : ℚ :=
  qmean (tailN period (trList df))

/-! ## zone_trader.py: signal synthesis (`_calculate_signal_strength`) -/

/-- The part of the price-action confluence result consumed by the signal
synthesizer (`confluence['signal']`). -/
structure Confluence where
  signal : String
deriving Repr, DecidableEq

/-- The part of the trend-bias result consumed by the synthesizer. -/
structure TrendBias where
  bias : String
  strength : String
deriving Repr, DecidableEq

/-- The part of the volume profile consumed by the synthesizer
(`volume_profile.get('is_spike', False)`). -/
structure VolumeProfile where
  is_spike : Bool
deriving Repr, DecidableEq

/-- Result of `_calculate_signal_strength`: the synthesized signal string
and its confidence (a Python `int`). -/
structure SignalStrength where
  signal : String
  confidence : ℤ
deriving Repr, DecidableEq

/-- The `signal` local variable of `_calculate_signal_strength`:
`'NO_SIGNAL'` unless the confluence signal is directional, in which case
the `STRONG_` prefix is stripped via `str.replace`. -/
def signalDirection (confluence : Confluence) : String :=
  if confluence.signal = "STRONG_BULLISH" ∨ confluence.signal = "STRONG_BEARISH" then
    pyReplace confluence.signal "STRONG_" ""
  else if confluence.signal = "BULLISH" ∨ confluence.signal = "BEARISH" then
    confluence.signal
  else "NO_SIGNAL"

/-- Confluence contribution to the score: +40 for a strong directional
signal, +20 for a plain one. -/
def confluenceContrib (confluence : Confluence) : ℤ :=
  if confluence.signal = "STRONG_BULLISH" ∨ confluence.signal = "STRONG_BEARISH" then 40
  else if confluence.signal = "BULLISH" ∨ confluence.signal = "BEARISH" then 20
  else 0

/-- Zone contribution: +15 per active zone named `fast_ma_zone` or
`slow_ma_zone` when the price is in a quality zone. -/
def zoneContrib (in_zone : Bool) (active_zones : List String) : ℤ :=
  if in_zone then
    ((active_zones.filter
      (fun z => z == "fast_ma_zone" || z == "slow_ma_zone")).length : ℤ) * 15
  else 0

/-- Trend-alignment contribution: +25/+15 when the directional signal
matches a non-neutral bias, otherwise the -20 counter-trend penalty. -/
def trendContrib (signal : String) (trend_bias : TrendBias) : ℤ :=
  if trend_bias.bias ≠ "NEUTRAL" then
    if (signal = "BULLISH" ∧ trend_bias.bias = "BULLISH") ∨
       (signal = "BEARISH" ∧ trend_bias.bias = "BEARISH") then
      if trend_bias.strength = "STRONG" then 25 else 15
    else -20
  else 0

/-- Volume contribution: +10 on a volume spike. -/
def volumeContrib (volume_profile : VolumeProfile) : ℤ :=
  if volume_profile.is_spike then 10 else 0

/-- The accumulated score (`base_confidence`) of
`ZoneTrader._calculate_signal_strength`, before thresholding. -/
def signalScore (confluence : Confluence) (trend_bias : TrendBias)
    (in_zone : Bool) (volume_profile : VolumeProfile)
    (active_zones : List String) : ℤ :=
  confluenceContrib confluence + zoneContrib in_zone active_zones +
    trendContrib (signalDirection confluence) trend_bias +
    volumeContrib volume_profile

/-- `ZoneTrader._calculate_signal_strength`: threshold the accumulated
score into the final signal and report `min(base_confidence, 100)`. -/
def calculateSignalStrength (confluence : Confluence) (trend_bias : TrendBias)
    (in_zone : Bool) (volume_profile : VolumeProfile)
    (active_zones : List String) : SignalStrength :=
  let base := signalScore confluence trend_bias in_zone volume_profile active_zones
  let signal := signalDirection confluence
  let final_signal :=
    if base ≥ 70 then "STRONG_" ++ signal
    else if base ≥ 50 then signal
    else if base ≥ 30 then "WEAK_" ++ signal
    else "NO_SIGNAL"
  { signal := final_signal, confidence := min base 100 }

/-! ## zone_trader.py: risk/reward (`_calculate_risk_reward`) -/

/-- Result of `_calculate_risk_reward`.  `none` in a field models both the
Python `None` of the `NO_SIGNAL` branch and a NaN produced by an undefined
ATR (insufficient history), as documented at `calcRiskReward`. -/
structure RiskReward where
  stop_loss : Option ℚ
  take_profit : Option ℚ
  risk_reward : Option ℚ
  risk_pips : Option ℚ
  reward_pips : Option ℚ
deriving Repr, DecidableEq

/-- `ZoneTrader._calculate_risk_reward(h1_data, zones, signal)`.  The
`zones` argument is accepted and ignored exactly as in the source.  When
the signal is directional and the series is empty, `iloc[-1]` raises; when
`len(df) < 14` the ATR is NaN, so stop/target/pip fields are NaN (`none`
here) and — because `risk > 0` is false for NaN — the ratio degenerates to
the number 0, as in the source. -/
def calcRiskReward (df : List Row) (_zones : List (String × ℚ))
    (signal : String) : Except String RiskReward :=
  if strContains signal "NO_SIGNAL" then
    .ok ⟨none, none, none, none, none⟩
  else
    match df.getLast? with
    | none => .error "IndexError: single positional indexer is out-of-bounds"
    | some last =>
      let current_price := last.close
      match atrLast df 14 with
      | none => .ok ⟨none, none, some 0, none, none⟩
      | some atr =>
        let stop_loss :=
          if strContains signal "BULLISH" then current_price - atr * (5/2)
          else current_price + atr * (5/2)
        let take_profit :=
          if strContains signal "BULLISH" then
            current_price + atr * RISK_REWARD_RATIO * (5/2)
          else current_price - atr * RISK_REWARD_RATIO * (5/2)
        let risk := |current_price - stop_loss|
        let reward := |take_profit - current_price|
        let rr_ratio := if risk > 0 then reward / risk else 0
        .ok ⟨some stop_loss, some take_profit, some rr_ratio,
             some (risk / PIP_VALUE), some (reward / PIP_VALUE)⟩

/-! ## Claims C1, C2 (signal synthesizer) -/

theorem confluenceContrib_nonneg (c : Confluence) : 0 ≤ confluenceContrib c := by
  unfold confluenceContrib; split_ifs <;> omega

theorem zoneContrib_nonneg (iz : Bool) (az : List String) : 0 ≤ zoneContrib iz az := by
  unfold zoneContrib; split_ifs <;> positivity

theorem trendContrib_ge (s : String) (t : TrendBias) : -20 ≤ trendContrib s t := by
  unfold trendContrib; split_ifs <;> omega

theorem volumeContrib_nonneg (v : VolumeProfile) : 0 ≤ volumeContrib v := by
  unfold volumeContrib; split_ifs <;> omega

/-- The four contributions bound the accumulated score below by -20. -/
theorem signalScore_ge (c : Confluence) (t : TrendBias) (iz : Bool)
    (v : VolumeProfile) (az : List String) :
    -20 ≤ signalScore c t iz v az := by
  have h1 := confluenceContrib_nonneg c
  have h2 := zoneContrib_nonneg iz az
  have h3 := trendContrib_ge (signalDirection c) t
  have h4 := volumeContrib_nonneg v
  unfold signalScore
  omega

theorem calculateSignalStrength_confidence_eq (c : Confluence) (t : TrendBias)
    (iz : Bool) (v : VolumeProfile) (az : List String) :
    (calculateSignalStrength c t iz v az).confidence =
      min (signalScore c t iz v az) 100 := rfl

/-- C1 (amended): the reported confidence is `min(score, 100)`, hence at
most 100, but it is only bounded below by -20: the counter-trend penalty
can drive it negative, so the claimed lower clamp at 0 does not exist. -/
theorem confidence_bounds (c : Confluence) (t : TrendBias) (iz : Bool)
    (v : VolumeProfile) (az : List String) :
    -20 ≤ (calculateSignalStrength c t iz v az).confidence ∧
      (calculateSignalStrength c t iz v az).confidence ≤ 100 := by
  have h := signalScore_ge c t iz v az
  rw [calculateSignalStrength_confidence_eq]
  omega

/-- C1 counterexample: with no confluence signal, price outside all zones,
no volume spike, and a bullish daily trend, the synthesizer reports
confidence -20, violating `0 ≤ confidence`. -/
theorem confidence_below_zero :
    (calculateSignalStrength ⟨"NEUTRAL"⟩ ⟨"BULLISH", "STRONG"⟩ false ⟨false⟩ []).confidence
      = -20 ∧
    ¬ (0 ≤ (calculateSignalStrength ⟨"NEUTRAL"⟩ ⟨"BULLISH", "STRONG"⟩ false
        ⟨false⟩ []).confidence) := by
  constructor <;> decide

/-- C2 counterexample: with a `NEUTRAL` confluence signal, price inside
both the fast- and slow-MA zones, a neutral daily bias and a volume spike,
the accumulated score is 40 and the emitted signal string is
`WEAK_NO_SIGNAL`, which is not among the seven documented signal values. -/
theorem weak_no_signal_reachable :
    (calculateSignalStrength ⟨"NEUTRAL"⟩ ⟨"NEUTRAL", "WEAK"⟩ true ⟨true⟩
      ["fast_ma_zone", "slow_ma_zone"]).signal = "WEAK_NO_SIGNAL" ∧
    "WEAK_NO_SIGNAL" ∉ ["NO_SIGNAL", "WEAK_BULLISH", "BULLISH", "STRONG_BULLISH",
      "WEAK_BEARISH", "BEARISH", "STRONG_BEARISH"] := by
  constructor <;> decide

theorem filter_pair_length_le {l : List String} (h : l.Nodup) (a b : String) :
    (l.filter (fun z => z == a || z == b)).length ≤ 2 := by
  have hsub : (l.filter (fun z => z == a || z == b)) ⊆ [a, b] := by
    intro x hx
    have hx2 := List.of_mem_filter hx
    simp only [Bool.or_eq_true, beq_iff_eq] at hx2
    rcases hx2 with h1 | h1 <;> simp [h1]
  have hnd : (l.filter (fun z => z == a || z == b)).Nodup := h.filter _
  have := (List.subperm_of_subset hnd hsub).length_le
  simpa using this

theorem signalDirection_cases (c : Confluence) :
    signalDirection c = "BULLISH" ∨ signalDirection c = "BEARISH" ∨
      signalDirection c = "NO_SIGNAL" := by
  unfold signalDirection
  split_ifs with h1 h2
  · rcases h1 with h | h <;> rw [h] <;> decide
  · rcases h2 with h | h <;> rw [h] <;> simp
  · simp

theorem signalDirection_no_signal_confluence (c : Confluence)
    (h : signalDirection c = "NO_SIGNAL") :
    ¬ (c.signal = "STRONG_BULLISH" ∨ c.signal = "STRONG_BEARISH") ∧
    ¬ (c.signal = "BULLISH" ∨ c.signal = "BEARISH") := by
  unfold signalDirection at h
  split_ifs at h with h1 h2
  · exfalso
    rcases h1 with h3 | h3 <;> rw [h3] at h <;> exact absurd h (by decide)
  · exfalso
    rcases h2 with h3 | h3 <;> rw [h3] at h <;> exact absurd h (by decide)
  · exact ⟨h1, h2⟩

/-- Without a directional confluence signal the accumulated score stays
below 50 (zone contribution at most 2·15 for a duplicate-free active-zone
list, volume at most 10, trend contribution never positive). -/
theorem signalScore_lt_50_of_no_signal (c : Confluence) (t : TrendBias)
    (iz : Bool) (v : VolumeProfile) (az : List String) (hnd : az.Nodup)
    (hd : signalDirection c = "NO_SIGNAL") :
    signalScore c t iz v az < 50 := by
  obtain ⟨hc1, hc2⟩ := signalDirection_no_signal_confluence c hd
  have hcount := filter_pair_length_le hnd "fast_ma_zone" "slow_ma_zone"
  have hcount' : ((az.filter
      (fun z => z == "fast_ma_zone" || z == "slow_ma_zone")).length : ℤ) ≤ 2 := by
    exact_mod_cast hcount
  have h1 : confluenceContrib c = 0 := by
    unfold confluenceContrib; rw [if_neg hc1, if_neg hc2]
  have h2 : zoneContrib iz az ≤ 30 := by
    unfold zoneContrib; split_ifs <;> omega
  have h3 : trendContrib (signalDirection c) t ≤ 0 := by
    rw [hd]; unfold trendContrib
    split_ifs with g1 g2 g3 <;> try omega
    all_goals rcases g2 with ⟨g4, _⟩ | ⟨g4, _⟩ <;> exact absurd g4 (by decide)
  have h4 : volumeContrib v ≤ 10 := by
    unfold volumeContrib; split_ifs <;> omega
  unfold signalScore
  omega

/-- C2 (amended): the final signal is the threshold map of the accumulated
score (≥70 strong, ≥50 plain, ≥30 weak, else `NO_SIGNAL`), and — provided
the active-zone list has no duplicate names, as in the caller — the
resulting string always lies in the seven documented values *plus*
`WEAK_NO_SIGNAL`, the extra value emitted when a score in [30,50) is
reached without a directional confluence signal. -/
theorem signal_threshold_map (c : Confluence) (t : TrendBias) (iz : Bool)
    (v : VolumeProfile) (az : List String) (hnd : az.Nodup) :
    (70 ≤ signalScore c t iz v az →
      (calculateSignalStrength c t iz v az).signal = "STRONG_" ++ signalDirection c) ∧
    (50 ≤ signalScore c t iz v az ∧ signalScore c t iz v az < 70 →
      (calculateSignalStrength c t iz v az).signal = signalDirection c) ∧
    (30 ≤ signalScore c t iz v az ∧ signalScore c t iz v az < 50 →
      (calculateSignalStrength c t iz v az).signal = "WEAK_" ++ signalDirection c) ∧
    (signalScore c t iz v az < 30 →
      (calculateSignalStrength c t iz v az).signal = "NO_SIGNAL") ∧
    (calculateSignalStrength c t iz v az).signal ∈
      ["NO_SIGNAL", "WEAK_BULLISH", "BULLISH", "STRONG_BULLISH",
       "WEAK_BEARISH", "BEARISH", "STRONG_BEARISH", "WEAK_NO_SIGNAL"] := by
  have hres : (calculateSignalStrength c t iz v az).signal =
      (if signalScore c t iz v az ≥ 70 then "STRONG_" ++ signalDirection c
       else if signalScore c t iz v az ≥ 50 then signalDirection c
       else if signalScore c t iz v az ≥ 30 then "WEAK_" ++ signalDirection c
       else "NO_SIGNAL") := rfl
  refine ⟨?_, ?_, ?_, ?_, ?_⟩
  · intro h; rw [hres, if_pos (by omega)]
  · intro ⟨h1, h2⟩; rw [hres, if_neg (by omega), if_pos (by omega)]
  · intro ⟨h1, h2⟩
    rw [hres, if_neg (by omega), if_neg (by omega), if_pos (by omega)]
  · intro h
    rw [hres, if_neg (by omega), if_neg (by omega), if_neg (by omega)]
  · rw [hres]
    rcases signalDirection_cases c with hd | hd | hd <;> rw [hd] <;>
        split_ifs with h1 h2 h3 <;> try decide
    all_goals exact absurd (signalScore_lt_50_of_no_signal c t iz v az hnd hd) (by omega)

/-- C2 witness: a concrete directional run through the threshold map. -/
theorem signal_threshold_map_witness :
    (["fast_ma_zone", "slow_ma_zone"] : List String).Nodup ∧
    (calculateSignalStrength ⟨"STRONG_BULLISH"⟩ ⟨"BULLISH", "STRONG"⟩ true ⟨true⟩
      ["fast_ma_zone", "slow_ma_zone"]).signal ∈
      ["NO_SIGNAL", "WEAK_BULLISH", "BULLISH", "STRONG_BULLISH",
       "WEAK_BEARISH", "BEARISH", "STRONG_BEARISH", "WEAK_NO_SIGNAL"] := by
  have hnd : (["fast_ma_zone", "slow_ma_zone"] : List String).Nodup := by decide
  exact ⟨hnd, (signal_threshold_map ⟨"STRONG_BULLISH"⟩ ⟨"BULLISH", "STRONG"⟩ true ⟨true⟩
    ["fast_ma_zone", "slow_ma_zone"] hnd).2.2.2.2⟩

/-! ## Claims C6, C10 (risk/reward) -/

/-- C6: whenever the signal is directional (so stop/target are set) and
the ATR is defined and positive, the ratio equals `reward_pips/risk_pips`
exactly, and the take-profit lies on the profitable side of the entry
price: above it for a `BULLISH`-direction signal, below it otherwise
(the source's `else` branch, taken by every `BEARISH` signal). -/
theorem risk_reward_consistency (df : List Row) (zs : List (String × ℚ))
    (s : String) (r : RiskReward) (row : Row) (a : ℚ)
    (hns : strContains s "NO_SIGNAL" = false)
    (hrow : df.getLast? = some row)
    (hatr : atrLast df 14 = some a) (hapos : 0 < a)
    (hok : calcRiskReward df zs s = .ok r) :
    ∃ stop tp rr rp rwp,
      r = ⟨some stop, some tp, some rr, some rp, some rwp⟩ ∧
      rr = rwp / rp ∧
      (strContains s "BULLISH" = true → row.close < tp) ∧
      (strContains s "BULLISH" = false → tp < row.close) := by
  unfold calcRiskReward at hok
  rw [hns] at hok
  simp only [Bool.false_eq_true, if_false, hrow, hatr] at hok
  by_cases hb : strContains s "BULLISH" = true
  · rw [hb] at hok
    simp only [if_true] at hok
    have hrisk : |row.close - (row.close - a * (5/2))| = a * (5/2) := by
      rw [show row.close - (row.close - a * (5/2)) = a * (5/2) by ring]
      exact abs_of_pos (by positivity)
    have hrew : |row.close + a * RISK_REWARD_RATIO * (5/2) - row.close|
        = a * RISK_REWARD_RATIO * (5/2) := by
      rw [show row.close + a * RISK_REWARD_RATIO * (5/2) - row.close
        = a * RISK_REWARD_RATIO * (5/2) by ring]
      exact abs_of_pos (by rw [ RISK_REWARD_RATIO]; positivity)
    rw [hrisk, hrew] at hok
    rw [if_pos (by positivity)] at hok
    refine ⟨row.close - a * (5/2), row.close + a * RISK_REWARD_RATIO * (5/2),
      a * RISK_REWARD_RATIO * (5/2) / (a * (5/2)),
      a * (5/2) / PIP_VALUE, a * RISK_REWARD_RATIO * (5/2) / PIP_VALUE,
      (Except.ok.inj hok).symm, ?_, ?_, ?_⟩
    · rw [PIP_VALUE]
      have ha : a ≠ 0 := ne_of_gt hapos
      field_simp
      ring
    · intro _
      have : 0 < a * RISK_REWARD_RATIO * (5/2) := by
        rw [ RISK_REWARD_RATIO]; positivity
      linarith
    · intro hcontra
      rw [hb] at hcontra
      exact absurd hcontra (by decide)
  · rw [Bool.not_eq_true] at hb
    rw [hb] at hok
    simp only [Bool.false_eq_true, if_false] at hok
    have hrisk : |row.close - (row.close + a * (5/2))| = a * (5/2) := by
      rw [show row.close - (row.close + a * (5/2)) = -(a * (5/2)) by ring, abs_neg]
      exact abs_of_pos (by positivity)
    have hrew : |row.close - a * RISK_REWARD_RATIO * (5/2) - row.close|
        = a * RISK_REWARD_RATIO * (5/2) := by
      rw [show row.close - a * RISK_REWARD_RATIO * (5/2) - row.close
        = -(a * RISK_REWARD_RATIO * (5/2)) by ring, abs_neg]
      exact abs_of_pos (by rw [ RISK_REWARD_RATIO]; positivity)
    rw [hrisk, hrew] at hok
    rw [if_pos (by positivity)] at hok
    refine ⟨row.close + a * (5/2), row.close - a * RISK_REWARD_RATIO * (5/2),
      a * RISK_REWARD_RATIO * (5/2) / (a * (5/2)),
      a * (5/2) / PIP_VALUE, a * RISK_REWARD_RATIO * (5/2) / PIP_VALUE,
      (Except.ok.inj hok).symm, ?_, ?_, ?_⟩
    · rw [PIP_VALUE]
      have ha : a ≠ 0 := ne_of_gt hapos
      field_simp
      ring
    · intro hcontra
      rw [hb] at hcontra
      exact absurd hcontra (by decide)
    · intro _
      have : 0 < a * RISK_REWARD_RATIO * (5/2) := by
        rw [ RISK_REWARD_RATIO]; positivity
      linarith

/-- C10: for every directional signal with a defined positive ATR, the
reported risk/reward ratio is exactly the configured constant 1.7,
independently of the candle data, the zones, and the direction: both
distances are the same `ATR × 2.5` quantity, one scaled by the constant. -/
theorem risk_reward_ratio_constant (df : List Row) (zs : List (String × ℚ))
    (s : String) (r : RiskReward) (a : ℚ)
    (hns : strContains s "NO_SIGNAL" = false)
    (hatr : atrLast df 14 = some a) (hapos : 0 < a)
    (hok : calcRiskReward df zs s = .ok r) :
    r.risk_reward = some RISK_REWARD_RATIO := by
  unfold calcRiskReward at hok
  rw [hns] at hok
  simp only [Bool.false_eq_true, if_false] at hok
  match hrow : df.getLast? with
  | none => rw [hrow] at hok; exact absurd hok (by simp)
  | some row =>
  rw [hrow, hatr] at hok
  have ha : a ≠ 0 := ne_of_gt hapos
  have hratio : a * RISK_REWARD_RATIO * (5/2) / (a * (5/2)) = RISK_REWARD_RATIO := by
    field_simp
    ring
  by_cases hb : strContains s "BULLISH" = true
  · rw [hb] at hok
    simp only [if_true] at hok
    have hrisk : |row.close - (row.close - a * (5/2))| = a * (5/2) := by
      rw [show row.close - (row.close - a * (5/2)) = a * (5/2) by ring]
      exact abs_of_pos (by positivity)
    have hrew : |row.close + a * RISK_REWARD_RATIO * (5/2) - row.close|
        = a * RISK_REWARD_RATIO * (5/2) := by
      rw [show row.close + a * RISK_REWARD_RATIO * (5/2) - row.close
        = a * RISK_REWARD_RATIO * (5/2) by ring]
      exact abs_of_pos (by rw [ RISK_REWARD_RATIO]; positivity)
    rw [hrisk, hrew] at hok
    rw [if_pos (by positivity)] at hok
    rw [← Except.ok.inj hok]
    simp [hratio]
  · rw [Bool.not_eq_true] at hb
    rw [hb] at hok
    simp only [Bool.false_eq_true, if_false] at hok
    have hrisk : |row.close - (row.close + a * (5/2))| = a * (5/2) := by
      rw [show row.close - (row.close + a * (5/2)) = -(a * (5/2)) by ring, abs_neg]
      exact abs_of_pos (by positivity)
    have hrew : |row.close - a * RISK_REWARD_RATIO * (5/2) - row.close|
        = a * RISK_REWARD_RATIO * (5/2) := by
      rw [show row.close - a * RISK_REWARD_RATIO * (5/2) - row.close
        = -(a * RISK_REWARD_RATIO * (5/2)) by ring, abs_neg]
      exact abs_of_pos (by rw [ RISK_REWARD_RATIO]; positivity)
    rw [hrisk, hrew] at hok
    rw [if_pos (by positivity)] at hok
    rw [← Except.ok.inj hok]
    simp [hratio]

/-- A constant 14-candle series with unit range, used to evaluate the
risk/reward computation on a concrete input. -/
def wRow : Row := ⟨1, 2, 1, 1, 0, 0, 0, 0⟩

def wDf : List Row := List.replicate 14 wRow

/-- The concrete result of `calcRiskReward` on `wDf` with signal
`BULLISH` (ATR is exactly 1 there). -/
def wRRval : RiskReward :=
  ⟨some (-3/2), some (21/4), some (17/10), some 25000, some 42500⟩

/-- C6 witness: the consistency theorem instantiated on `wDf`. -/
theorem risk_reward_consistency_witness :
    ∃ stop tp rr rp rwp,
      wRRval = ⟨some stop, some tp, some rr, some rp, some rwp⟩ ∧
      rr = rwp / rp ∧
      (strContains "BULLISH" "BULLISH" = true → wRow.close < tp) ∧
      (strContains "BULLISH" "BULLISH" = false → tp < wRow.close) :=
  risk_reward_consistency wDf [] "BULLISH" wRRval wRow 1 (by decide)
    (by with_unfolding_all decide) (by with_unfolding_all decide) (by norm_num)
    (by with_unfolding_all rfl)

/-- C10 witness: the constant-ratio theorem instantiated on `wDf`. -/
theorem risk_reward_ratio_constant_witness :
    wRRval.risk_reward = some RISK_REWARD_RATIO :=
  risk_reward_ratio_constant wDf [] "BULLISH" wRRval 1 (by decide)
    (by with_unfolding_all decide) (by norm_num) (by with_unfolding_all rfl)

/-! ## dynamic_zones.py -/

/-- A trading zone around a moving average.  The method-specific metadata
keys of the source (`atr`, `volatility_data`, ...) are informational only
and are not modelled. -/
structure Zone where
  center : ℚ
  upper : ℚ
  lower : ℚ
  width_pips : ℚ := 0
  method : String := ""
  touches : Nat := 0
  rejections : Nat := 0
  quality : String := "LOW"
deriving Repr, DecidableEq

/-- The fields of a trend-analysis dict read by the zone builder
(`trend_data.get('bias'/'strength')`). -/
structure TrendData where
  bias : String := "NEUTRAL"
  strength : String := "WEAK"
deriving Repr, DecidableEq

/-- The latest values of the three MA columns (`create_zones`). -/
def maValues (df : List Row) : List (String × ℚ) :=
  [("fast_ma", (lastD df).fast_ma), ("slow_ma", (lastD df).slow_ma),
   ("trend_ma", (lastD df).trend_ma)]

/-- The zone dictionary built by every width-based sizing method: one zone
per MA at `ma ± zone_width`. -/
def mkWidthZones (mas : List (String × ℚ)) (zone_width : ℚ)
    (width_pips : ℚ) (method : String) : List (String × Zone) :=
  mas.map (fun p => (p.1 ++ "_zone",
    { center := p.2, upper := p.2 + zone_width, lower := p.2 - zone_width,
      width_pips := width_pips, method := method }))

/-- `DynamicZones._fixed_zones`. -/
def fixedZones (_df : List Row) (mas : List (String × ℚ))
    (_td : Option TrendData) : List (String × Zone) :=
  mkWidthZones mas (ZONE_WIDTH_PIPS * PIP_VALUE) ZONE_WIDTH_PIPS "FIXED"

/-- `DynamicZones._atr_based_zones`. -/
def atrBasedZones (df : List Row) (mas : List (String × ℚ))
    (td : Option TrendData) : List (String × Zone) :=
  if df.length < 14 then fixedZones df mas td
  else
    let latest_atr := atrLastVal df ATR_PERIOD
    let zone_width := latest_atr * ATR_ZONE_MULTIPLIER
    mkWidthZones mas zone_width (zone_width / PIP_VALUE) "ATR_BASED"

/-- The ATR series with its NaN prefix: entry `i` is defined iff
`i + 1 ≥ period`. -/
def rollingMeanOpt (period : Nat) (xs : List ℚ) : List (Option ℚ) :=
  (List.range xs.length).map (fun i =>
    if i + 1 < period then none
    else some (qmean ((xs.take (i + 1)).drop (i + 1 - period))))

def atrSeries (df : List Row) : List (Option ℚ) :=
  rollingMeanOpt ATR_PERIOD (trList df)

def insertSorted (x : ℚ) : List ℚ → List ℚ
  | [] => [x]
  | y :: ys => if x ≤ y then x :: y :: ys else y :: insertSorted x ys

def sortQ (xs : List ℚ) : List ℚ := xs.foldr insertSorted []

/-- `Series.quantile(q)` with pandas' default linear interpolation over
the non-NaN values: position `h = q·(n-1)` in the sorted list. -/
def quantileQ (xs : List ℚ) (q : ℚ) : ℚ :=
  let s := sortQ xs
  let h : ℚ := ((s.length : ℚ) - 1) * q
  let i : Nat := (⌊h⌋).toNat
  let lo := s.getD i 0
  let hi := s.getD (i + 1) lo
  lo + (h - i) * (hi - lo)

/-- Least-squares slope of `ys` against `x = 0, 1, ...`
(`np.polyfit(x, y, 1)[0]`); use sites guarantee at least two points. -/
def polyfitSlope (ys : List ℚ) : ℚ :=
  let n : ℚ := ys.length
  let xs := (List.range ys.length).map (fun i => (i : ℚ))
  let sx := qsum xs
  let sy := qsum ys
  let sxy := qsum (List.zipWith (· * ·) xs ys)
  let sxx := qsum (xs.map (fun x => x * x))
  (n * sxy - sx * sy) / (n * sxx - sx * sx)

/-- The intercept of the same least-squares line. -/
def polyfitIntercept (ys : List ℚ) : ℚ :=
  qmean ys - polyfitSlope ys *
    qmean ((List.range ys.length).map (fun i => (i : ℚ)))

/-- The fields of `_calculate_volatility_metrics` consumed by the regime
classifier (the price-range fields are metadata only and not modelled). -/
structure VolMetrics where
  current_atr : ℚ
  atr_slope : Option ℚ
  atr_percentile : ℚ
deriving Repr, DecidableEq

/-- `DynamicZones._calculate_volatility_metrics`.  `atr_slope = none`
models the NaN slope obtained when the 30-entry tail still contains NaN
ATR entries (`len(df) < 43`).  When the 5%-95% quantile spread is zero the
IEEE quotient is ±inf or NaN and Python's `max(0, min(1, ·))` then yields
1 for `current_atr ≥ q05` and 0 otherwise, which is modelled explicitly. -/
def volMetrics (df : List Row) : VolMetrics :=
  let atr_series := atrSeries df
  let current_atr := atrLastVal df ATR_PERIOD
  let atr_recent := tailN VOLATILITY_LOOKBACK atr_series
  let atr_slope :=
    if atr_recent.all (·.isSome) then some (polyfitSlope (atr_recent.filterMap id))
    else none
  let vals := atr_series.filterMap id
  let q05 := quantileQ vals (5/100)
  let q95 := quantileQ vals (95/100)
  let atr_percentile :=
    if q95 - q05 = 0 then (if current_atr ≥ q05 then 1 else 0)
    else max 0 (min 1 ((current_atr - q05) / (q95 - q05)))
  ⟨current_atr, atr_slope, atr_percentile⟩

/-- `DynamicZones._classify_volatility_regime`; comparisons against a NaN
slope are false. -/
def classifyVolRegime (v : VolMetrics) : String :=
  let slope_pos := match v.atr_slope with | some s => decide (s > 0) | none => false
  let slope_neg := match v.atr_slope with | some s => decide (s < 0) | none => false
  if v.atr_percentile > 8/10 ∨ (v.atr_percentile > 6/10 ∧ slope_pos = true) then
    "HIGH_VOLATILITY"
  else if v.atr_percentile < 2/10 ∨ (v.atr_percentile < 4/10 ∧ slope_neg = true) then
    "LOW_VOLATILITY"
  else "NORMAL_VOLATILITY"

/-- `DynamicZones._volatility_adaptive_zones`. -/
def volatilityAdaptiveZones (df : List Row) (mas : List (String × ℚ))
    (td : Option TrendData) : List (String × Zone) :=
  if df.length < VOLATILITY_LOOKBACK then atrBasedZones df mas td
  else
    let v := volMetrics df
    let regime := classifyVolRegime v
    let zone_multiplier :=
      if regime = "HIGH_VOLATILITY" then HIGH_VOLATILITY_MULTIPLIER
      else if regime = "LOW_VOLATILITY" then LOW_VOLATILITY_MULTIPLIER
      else NORMAL_VOLATILITY_MULTIPLIER
    let zone_width := v.current_atr * zone_multiplier
    mkWidthZones mas zone_width (zone_width / PIP_VALUE) "VOLATILITY_ADAPTIVE"

/-- Rescale one zone around its center, as the trend-adaptive and
market-condition methods do. -/
def scaleZone (mult : ℚ) (method : String) (p : String × Zone) : String × Zone :=
  let z := p.2
  let new_width := (z.upper - z.center) * mult
  (p.1, { z with
    upper := z.center + new_width
    lower := z.center - new_width
    width_pips := new_width / PIP_VALUE
    method := method })

/-- `DynamicZones._trend_adaptive_zones`. -/
def trendAdaptiveZones (df : List Row) (mas : List (String × ℚ))
    (td : Option TrendData) : List (String × Zone) :=
  let zones := atrBasedZones df mas td
  match td with
  | none => zones
  | some t =>
    let multiplier :=
      if t.strength = "STRONG" then STRONG_TREND_ZONE_MULTIPLIER
      else if t.strength = "MEDIUM" then MEDIUM_TREND_ZONE_MULTIPLIER
      else if t.strength = "WEAK" then WEAK_TREND_ZONE_MULTIPLIER
      else 1
    zones.map (scaleZone multiplier "TREND_ADAPTIVE")

/-- `close.diff().dropna()`. -/
def diffs (xs : List ℚ) : List ℚ :=
  List.zipWith (· - ·) (xs.drop 1) xs

/-- `DynamicZones._classify_market_condition` result. -/
structure MarketCondition where
  mtype : String
  efficiency : ℚ
  r_squared : ℚ
  slope : ℚ
  strength : String
deriving Repr, DecidableEq

/-- `DynamicZones._classify_market_condition`: movement efficiency and
linear-regression R² over the lookback window, with the explicit
zero-denominator guards of the source. -/
def classifyMarketCondition (df : List Row) : MarketCondition :=
  let recent := tailN MARKET_CONDITION_LOOKBACK df
  let closes := recent.map (fun r => r.close)
  let total_price_move := |closes.getLast?.getD 0 - closes.head?.getD 0|
  let total_path_length := qsum ((diffs closes).map (fun d => |d|))
  let efficiency := if total_path_length > 0 then total_price_move / total_path_length else 0
  let slope := polyfitSlope closes
  let intercept := polyfitIntercept closes
  let xs := (List.range closes.length).map (fun i => (i : ℚ))
  let ss_res := qsum (List.zipWith (fun x y => (y - (slope * x + intercept)) ^ 2) xs closes)
  let ss_tot := qsum (closes.map (fun y => (y - qmean closes) ^ 2))
  let r_squared := if ss_tot > 0 then 1 - ss_res / ss_tot else 0
  { mtype :=
      if efficiency > TRENDING_EFFICIENCY_THRESHOLD ∧
          r_squared > TRENDING_R_SQUARED_THRESHOLD then "TRENDING"
      else if efficiency < RANGING_EFFICIENCY_THRESHOLD then "RANGING"
      else "MIXED",
    efficiency := efficiency, r_squared := r_squared, slope := slope,
    strength := if r_squared > 7/10 then "STRONG"
      else if r_squared > 4/10 then "MEDIUM" else "WEAK" }

/-- `DynamicZones._market_condition_zones`. -/
def marketConditionZones (df : List Row) (mas : List (String × ℚ))
    (td : Option TrendData) : List (String × Zone) :=
  if df.length < MARKET_CONDITION_LOOKBACK then trendAdaptiveZones df mas td
  else
    let mc := classifyMarketCondition df
    let zones := atrBasedZones df mas td
    let multiplier :=
      if mc.mtype = "TRENDING" then TRENDING_MARKET_MULTIPLIER
      else if mc.mtype = "RANGING" then RANGING_MARKET_MULTIPLIER
      else MIXED_MARKET_MULTIPLIER
    zones.map (scaleZone multiplier "MARKET_CONDITION")

/-- `zones[name]['upper'] - zones[name]['center']` — half-width lookup by
zone name.  All zone maps produced here share the same keys, so the
`none` fallback is unreachable. -/
def zoneWidthOf (zs : List (String × Zone)) (name : String) : ℚ :=
  match zs.find? (fun p => p.1 == name) with
  | some p => p.2.upper - p.2.center
  | none => 0

/-- `DynamicZones._composite_zones`: blend ATR, volatility and market
widths with the configured weights (0.4/0.3/0.3), normalized by their
sum. -/
def compositeZones (df : List Row) (mas : List (String × ℚ))
    (td : Option TrendData) : List (String × Zone) :=
  let atr_zones := atrBasedZones df mas td
  let volatility_zones := volatilityAdaptiveZones df mas td
  let market_zones :=
    if MARKET_CONDITION_LOOKBACK ≤ df.length then marketConditionZones df mas td
    else atr_zones
  mas.map (fun p =>
    let zone_name := p.1 ++ "_zone"
    let atr_width := zoneWidthOf atr_zones zone_name
    let vol_width := zoneWidthOf volatility_zones zone_name
    let market_width := zoneWidthOf market_zones zone_name
    let composite_width :=
      (atr_width * (4/10) + vol_width * (3/10) + market_width * (3/10)) /
        (4/10 + 3/10 + 3/10)
    (zone_name,
     { center := p.2, upper := p.2 + composite_width, lower := p.2 - composite_width,
       width_pips := composite_width / PIP_VALUE, method := "COMPOSITE_ZONES" }))

/-- `DynamicZones._is_zone_rejection`: a far-side wick beyond
`body_size × rejection ratio`. -/
def isZoneRejection (candle : Row) (z : Zone) : Bool :=
  let body_top := max candle.open_ candle.close
  let body_bottom := min candle.open_ candle.close
  let body_size := |candle.close - candle.open_|
  let upper_wick := candle.high - body_top
  let lower_wick := body_bottom - candle.low
  (decide (candle.high ≥ z.center) && decide (body_top < z.center) &&
    decide (upper_wick > body_size * WICK_REJECTION_RATIO)) ||
  (decide (candle.low ≤ z.center) && decide (body_bottom > z.center) &&
    decide (lower_wick > body_size * WICK_REJECTION_RATIO))

/-- `DynamicZones._calculate_zone_metadata` merged into the zone record:
touch/rejection counts over the metadata lookback and the derived
quality grade. -/
def zoneMetadata (df : List Row) (z : Zone) : Zone :=
  if df.length < ZONE_METADATA_LOOKBACK then
    { z with touches := 0, rejections := 0, quality := "LOW" }
  else
    let recent := tailN ZONE_METADATA_LOOKBACK df
    let touched := recent.filter
      (fun c => decide (c.low ≤ z.upper) && decide (c.high ≥ z.lower))
    let touches := touched.length
    let rejections := (touched.filter (fun c => isZoneRejection c z)).length
    { z with
      touches := touches
      rejections := rejections
      quality :=
        if 2 ≤ rejections ∧ MIN_ZONE_TOUCHES ≤ touches then "HIGH"
        else if 1 ≤ rejections ∧ MIN_ZONE_TOUCHES ≤ touches then "MEDIUM"
        else "LOW" }

def zoneMethodNames : List String :=
  ["FIXED", "ATR_BASED", "VOLATILITY_ADAPTIVE", "TREND_ADAPTIVE",
   "MARKET_CONDITION", "COMPOSITE_ZONES"]

/-- The string-keyed dispatch table `zone_methods` (the fall-through case
is the only remaining recognized name, `COMPOSITE_ZONES`). -/
def zoneDispatch (df : List Row) (mas : List (String × ℚ))
    (td : Option TrendData) : String → List (String × Zone)
  | "FIXED" => fixedZones df mas td
  | "ATR_BASED" => atrBasedZones df mas td
  | "VOLATILITY_ADAPTIVE" => volatilityAdaptiveZones df mas td
  | "TREND_ADAPTIVE" => trendAdaptiveZones df mas td
  | "MARKET_CONDITION" => marketConditionZones df mas td
  | _ => compositeZones df mas td

/-- `DynamicZones.create_zones`: unknown-method check first, then the
empty-series guard, then dispatch plus per-zone metadata. -/
def createZones (df : List Row) (method : String)
    (td : Option TrendData) : Except String (List (String × Zone)) :=
  if method ∈ zoneMethodNames then
    if df = [] then .ok []
    else .ok ((zoneDispatch df (maValues df) td method).map
      (fun p => (p.1, zoneMetadata df p.2)))
  else .error ("Unknown zone method: " ++ method)

/-! ## Claim C7 (zone symmetry) -/

theorem qsum_nonneg (xs : List ℚ) (h : ∀ x ∈ xs, 0 ≤ x) : 0 ≤ qsum xs := by
  induction xs with
  | nil => simp [qsum]
  | cons x xs ih =>
    have hx := h x (List.mem_cons_self x xs)
    have hxs := ih (fun y hy => h y (List.mem_cons_of_mem x hy))
    show 0 ≤ x + qsum xs
    linarith

theorem qmean_nonneg (xs : List ℚ) (h : ∀ x ∈ xs, 0 ≤ x) : 0 ≤ qmean xs := by
  unfold qmean
  exact div_nonneg (qsum_nonneg xs h) (by positivity)

theorem trGo_nonneg (rest : List Row) : ∀ (prev : Row), ∀ x ∈ trGo prev rest, 0 ≤ x := by
  induction rest with
  | nil => intro prev x hx; simp [trGo] at hx
  | cons r rs ih =>
    intro prev x hx
    simp only [trGo, List.mem_cons] at hx
    rcases hx with h | h
    · subst h
      exact le_trans (abs_nonneg _) (le_max_right _ _)
    · exact ih r x h

theorem trList_nonneg (df : List Row) (hhl : ∀ r ∈ df, r.low ≤ r.high) :
    ∀ x ∈ trList df, 0 ≤ x := by
  cases df with
  | nil => intro x hx; simp [trList] at hx
  | cons r rs =>
    intro x hx
    simp only [trList, List.mem_cons] at hx
    rcases hx with h | h
    · subst h
      have := hhl r (List.mem_cons_self r rs)
      linarith
    · exact trGo_nonneg rs r x h

theorem tailN_mem {xs : List ℚ} {n : Nat} {x : ℚ} (h : x ∈ tailN n xs) : x ∈ xs :=
  List.drop_subset _ _ h

theorem atrLastVal_nonneg (df : List Row) (p : Nat)
    (hhl : ∀ r ∈ df, r.low ≤ r.high) : 0 ≤ atrLastVal df p := by
  unfold atrLastVal
  exact qmean_nonneg _ (fun x hx => trList_nonneg df hhl x (tailN_mem hx))

/-- A zone laid symmetrically around its center with nonnegative
half-width. -/
def ZoneShape (p : String × Zone) : Prop :=
  ∃ w, 0 ≤ w ∧ p.2.upper = p.2.center + w ∧ p.2.lower = p.2.center - w

theorem mkWidthZones_shape (mas : List (String × ℚ)) (w wp : ℚ) (m : String)
    (hw : 0 ≤ w) : ∀ p ∈ mkWidthZones mas w wp m, ZoneShape p := by
  intro p hp
  rcases List.mem_map.mp hp with ⟨q, _, hq⟩
  exact ⟨w, hw, by rw [← hq], by rw [← hq]⟩

theorem fixedZones_shape (df : List Row) (mas : List (String × ℚ))
    (td : Option TrendData) : ∀ p ∈ fixedZones df mas td, ZoneShape p := by
  apply mkWidthZones_shape
  norm_num [ZONE_WIDTH_PIPS, PIP_VALUE]

theorem atrBasedZones_shape (df : List Row) (mas : List (String × ℚ))
    (td : Option TrendData) (hhl : ∀ r ∈ df, r.low ≤ r.high) :
    ∀ p ∈ atrBasedZones df mas td, ZoneShape p := by
  unfold atrBasedZones
  split_ifs
  · exact fixedZones_shape df mas td
  · apply mkWidthZones_shape
    have := atrLastVal_nonneg df ATR_PERIOD hhl
    have h2 : (0:ℚ) ≤ ATR_ZONE_MULTIPLIER := by norm_num [ATR_ZONE_MULTIPLIER]
    positivity

theorem volatilityAdaptiveZones_shape (df : List Row) (mas : List (String × ℚ))
    (td : Option TrendData) (hhl : ∀ r ∈ df, r.low ≤ r.high) :
    ∀ p ∈ volatilityAdaptiveZones df mas td, ZoneShape p := by
  unfold volatilityAdaptiveZones
  split_ifs
  · exact atrBasedZones_shape df mas td hhl
  · apply mkWidthZones_shape
    have h1 : 0 ≤ (volMetrics df).current_atr := atrLastVal_nonneg df ATR_PERIOD hhl
    have h2 : (0:ℚ) ≤ (if classifyVolRegime (volMetrics df) = "HIGH_VOLATILITY" then
        HIGH_VOLATILITY_MULTIPLIER
        else if classifyVolRegime (volMetrics df) = "LOW_VOLATILITY" then
          LOW_VOLATILITY_MULTIPLIER
        else NORMAL_VOLATILITY_MULTIPLIER) := by
      split_ifs <;>
        norm_num [HIGH_VOLATILITY_MULTIPLIER, LOW_VOLATILITY_MULTIPLIER,
          NORMAL_VOLATILITY_MULTIPLIER]
    positivity

theorem scaleZone_shape (mult : ℚ) (m : String) (p : String × Zone)
    (hp : ZoneShape p) (hm : 0 ≤ mult) : ZoneShape (scaleZone mult m p) := by
  rcases hp with ⟨w, hw, hup, hlo⟩
  refine ⟨(p.2.upper - p.2.center) * mult, ?_, rfl, rfl⟩
  rw [hup]
  have : p.2.center + w - p.2.center = w := by ring
  rw [this]
  positivity

theorem trendAdaptiveZones_shape (df : List Row) (mas : List (String × ℚ))
    (td : Option TrendData) (hhl : ∀ r ∈ df, r.low ≤ r.high) :
    ∀ p ∈ trendAdaptiveZones df mas td, ZoneShape p := by
  unfold trendAdaptiveZones
  cases td with
  | none => exact atrBasedZones_shape df mas none hhl
  | some t =>
    intro p hp
    rcases List.mem_map.mp hp with ⟨q, hq, hqe⟩
    rw [← hqe]
    apply scaleZone_shape _ _ _ (atrBasedZones_shape df mas (some t) hhl q hq)
    split_ifs <;>
      norm_num [STRONG_TREND_ZONE_MULTIPLIER, MEDIUM_TREND_ZONE_MULTIPLIER,
        WEAK_TREND_ZONE_MULTIPLIER]

theorem marketConditionZones_shape (df : List Row) (mas : List (String × ℚ))
    (td : Option TrendData) (hhl : ∀ r ∈ df, r.low ≤ r.high) :
    ∀ p ∈ marketConditionZones df mas td, ZoneShape p := by
  unfold marketConditionZones
  split_ifs
  · exact trendAdaptiveZones_shape df mas td hhl
  · intro p hp
    rcases List.mem_map.mp hp with ⟨q, hq, hqe⟩
    rw [← hqe]
    apply scaleZone_shape _ _ _ (atrBasedZones_shape df mas td hhl q hq)
    split_ifs <;>
      norm_num [TRENDING_MARKET_MULTIPLIER, RANGING_MARKET_MULTIPLIER,
        MIXED_MARKET_MULTIPLIER]

theorem zoneWidthOf_nonneg (zs : List (String × Zone)) (name : String)
    (h : ∀ p ∈ zs, ZoneShape p) : 0 ≤ zoneWidthOf zs name := by
  unfold zoneWidthOf
  cases hf : zs.find? (fun p => p.1 == name) with
  | none => simp
  | some p =>
    rcases h p (List.mem_of_find?_eq_some hf) with ⟨w, hw, hup, _⟩
    simp only [hup]
    linarith

theorem compositeZones_shape (df : List Row) (mas : List (String × ℚ))
    (td : Option TrendData) (hhl : ∀ r ∈ df, r.low ≤ r.high) :
    ∀ p ∈ compositeZones df mas td, ZoneShape p := by
  intro p hp
  unfold compositeZones at hp
  rcases List.mem_map.mp hp with ⟨q, _, hqe⟩
  have h1 := zoneWidthOf_nonneg (atrBasedZones df mas td) (q.1 ++ "_zone")
    (atrBasedZones_shape df mas td hhl)
  have h2 := zoneWidthOf_nonneg (volatilityAdaptiveZones df mas td) (q.1 ++ "_zone")
    (volatilityAdaptiveZones_shape df mas td hhl)
  have h3 : 0 ≤ zoneWidthOf
      (if MARKET_CONDITION_LOOKBACK ≤ df.length then marketConditionZones df mas td
       else atrBasedZones df mas td) (q.1 ++ "_zone") := by
    split_ifs
    · exact zoneWidthOf_nonneg _ _ (marketConditionZones_shape df mas td hhl)
    · exact zoneWidthOf_nonneg _ _ (atrBasedZones_shape df mas td hhl)
  subst hqe
  exact ⟨(zoneWidthOf (atrBasedZones df mas td) (q.1 ++ "_zone") * (4/10) +
      zoneWidthOf (volatilityAdaptiveZones df mas td) (q.1 ++ "_zone") * (3/10) +
      zoneWidthOf
        (if MARKET_CONDITION_LOOKBACK ≤ df.length then marketConditionZones df mas td
         else atrBasedZones df mas td) (q.1 ++ "_zone") * (3/10)) /
      (4/10 + 3/10 + 3/10),
    div_nonneg (by linarith) (by norm_num), rfl, rfl⟩

theorem zoneDispatch_shape (df : List Row) (mas : List (String × ℚ))
    (td : Option TrendData) (m : String) (hhl : ∀ r ∈ df, r.low ≤ r.high) :
    ∀ p ∈ zoneDispatch df mas td m, ZoneShape p := by
  unfold zoneDispatch
  split
  · exact fixedZones_shape df mas td
  · exact atrBasedZones_shape df mas td hhl
  · exact volatilityAdaptiveZones_shape df mas td hhl
  · exact trendAdaptiveZones_shape df mas td hhl
  · exact marketConditionZones_shape df mas td hhl
  · exact compositeZones_shape df mas td hhl

theorem zoneMetadata_fields (df : List Row) (z : Zone) :
    (zoneMetadata df z).center = z.center ∧ (zoneMetadata df z).upper = z.upper ∧
      (zoneMetadata df z).lower = z.lower := by
  unfold zoneMetadata
  split_ifs <;> exact ⟨rfl, rfl, rfl⟩

/-- C7: every zone produced by `create_zones` — under any of the six
sizing methods, on any series whose candles satisfy `high ≥ low` — is a
symmetric band: `lower ≤ center ≤ upper` and
`upper - center = center - lower`. -/
theorem zone_symmetry (df : List Row) (m : String) (td : Option TrendData)
    (zs : List (String × Zone)) (n : String) (z : Zone)
    (hhl : ∀ r ∈ df, r.low ≤ r.high)
    (hok : createZones df m td = .ok zs) (hmem : (n, z) ∈ zs) :
    z.lower ≤ z.center ∧ z.center ≤ z.upper ∧
      z.upper - z.center = z.center - z.lower := by
  unfold createZones at hok
  by_cases h1 : m ∈ zoneMethodNames
  · rw [if_pos h1] at hok
    by_cases h2 : df = []
    · -- empty series: the zone map is empty
      rw [if_pos h2] at hok
      rw [← Except.ok.inj hok] at hmem
      simp at hmem
    · rw [if_neg h2] at hok
      rw [← Except.ok.inj hok] at hmem
      rcases List.mem_map.mp hmem with ⟨q, hq, hqe⟩
      rcases zoneDispatch_shape df (maValues df) td m hhl q hq with ⟨w, hw, hup, hlo⟩
      have hz : z = zoneMetadata df q.2 := (congrArg Prod.snd hqe).symm
      obtain ⟨hc, hu, hl⟩ := zoneMetadata_fields df q.2
      rw [hz, hc, hu, hl, hup, hlo]
      refine ⟨by linarith, by linarith, by ring⟩
  · rw [if_neg h1] at hok
    exact absurd hok (by simp)

/-- A one-candle series with unit range and all MA columns at 1. -/
def wZoneRow : Row := ⟨1, 2, 1, 1, 0, 1, 1, 1⟩

/-- The zones produced by FIXED sizing on that series (±15 pips). -/
def wZs : List (String × Zone) :=
  [("fast_ma_zone", ⟨1, 2003/2000, 1997/2000, 15, "FIXED", 0, 0, "LOW"⟩),
   ("slow_ma_zone", ⟨1, 2003/2000, 1997/2000, 15, "FIXED", 0, 0, "LOW"⟩),
   ("trend_ma_zone", ⟨1, 2003/2000, 1997/2000, 15, "FIXED", 0, 0, "LOW"⟩)]

set_option maxRecDepth 4000 in
/-- C7 witness: the symmetry theorem applied to a concrete FIXED-method
zone. -/
theorem zone_symmetry_witness :
    (1997/2000 : ℚ) ≤ 1 ∧ (1 : ℚ) ≤ 2003/2000 ∧
      (2003/2000 : ℚ) - 1 = 1 - 1997/2000 := by
  have h := zone_symmetry [wZoneRow] "FIXED" none wZs "fast_ma_zone"
    ⟨1, 2003/2000, 1997/2000, 15, "FIXED", 0, 0, "LOW"⟩
    (by with_unfolding_all decide) (by with_unfolding_all rfl)
    (by with_unfolding_all decide)
  exact h

/-! ## enhanced_trend_analysis.py -/

/-- The common shape of every trend-method result (composite extras such
as the component list are informational and not modelled). -/
structure TrendResult where
  method : String
  bias : String
  strength : String
  confidence : ℚ
deriving Repr, DecidableEq

/-- `EnhancedTrendAnalysis._neutral_trend` (the source dict carries no
`method` key; modelled as the empty string). -/
def neutralTrend : TrendResult := ⟨"", "NEUTRAL", "WEAK", 30⟩

/-- `_calculate_ma_confidence(score, max_score)`. -/
def maConfidence (score max_score : Nat) : ℚ :=
  min (40 + ((score : ℚ) / max_score) * 40) 85

/-- The three pairwise comparisons of `_ma_alignment_trend` on the latest
row, counted as the alignment score. -/
def maAlignmentScore (df : List Row) : Nat :=
  let latest := lastD df
  (if latest.fast_ma > latest.slow_ma then 1 else 0) +
    (if latest.close > latest.trend_ma then 1 else 0) +
    (if latest.slow_ma > latest.trend_ma then 1 else 0)

/-- The bearish counterpart (each comparison negated). -/
def maBearScore (df : List Row) : Nat :=
  let latest := lastD df
  (if ¬ latest.fast_ma > latest.slow_ma then 1 else 0) +
    (if ¬ latest.close > latest.trend_ma then 1 else 0) +
    (if ¬ latest.slow_ma > latest.trend_ma then 1 else 0)

/-- The bias/strength selection of `_ma_alignment_trend`. -/
def maAlignmentBias (alignment_score bear_score : Nat) : String × String :=
  if 2 ≤ alignment_score then
    ("BULLISH", if alignment_score = 3 then "STRONG" else "MEDIUM")
  else if alignment_score ≤ 1 then
    (if 2 ≤ bear_score then
      ("BEARISH", if bear_score = 3 then "STRONG" else "MEDIUM")
     else ("NEUTRAL", "WEAK"))
  else ("NEUTRAL", "WEAK")

/-- `EnhancedTrendAnalysis._ma_alignment_trend`. -/
def maAlignmentTrend (df : List Row) : TrendResult :=
  if df = [] ∨ df.length < TREND_MA_PERIOD then neutralTrend
  else
    ⟨"MA_ALIGNMENT", (maAlignmentBias (maAlignmentScore df) (maBearScore df)).1,
      (maAlignmentBias (maAlignmentScore df) (maBearScore df)).2,
      maConfidence (maAlignmentScore df) 3⟩

/-- `EnhancedTrendAnalysis._calculate_slope`. -/
def calcSlope (series : List ℚ) (period : Nat) : ℚ :=
  if series.length < period then 0
  else
    let y := tailN period series
    if y.length < 2 then 0 else polyfitSlope y

/-- `_calculate_slope_confidence`. -/
def slopeConfidence (bullish_slopes bearish_slopes : Nat) : ℚ :=
  min (40 + (max bullish_slopes bearish_slopes : ℚ) * 15) 90

/-- `slope/atr > SLOPE_THRESHOLD`, with the IEEE convention for a zero
divisor: `s/0` is ±inf by the sign of `s` (NaN for `0/0`), so the test
degenerates to a sign test. -/
def slopeAboveThreshold (s atr : ℚ) : Bool :=
  if atr = 0 then decide (s > 0) else decide (s / atr > SLOPE_THRESHOLD)

/-- `slope/atr < -SLOPE_THRESHOLD`, same IEEE convention. -/
def slopeBelowThreshold (s atr : ℚ) : Bool :=
  if atr = 0 then decide (s < 0) else decide (s / atr < -SLOPE_THRESHOLD)

/-- The four ATR-normalized slopes of `_slope_analysis_trend`. -/
def slopeValues (df : List Row) : List ℚ :=
  [calcSlope (df.map (fun r => r.fast_ma)) SLOPE_FAST_PERIOD,
   calcSlope (df.map (fun r => r.slow_ma)) SLOPE_SLOW_PERIOD,
   calcSlope (df.map (fun r => r.trend_ma)) SLOPE_TREND_PERIOD,
   calcSlope (df.map (fun r => r.close)) SLOPE_PRICE_PERIOD]

/-- `(high - low).rolling(14).mean().iloc[-1]`, the normalizer of the
slope method (defined under its `len ≥ 20` guard). -/
def slopeAtr (df : List Row) : ℚ :=
  qmean (tailN 14 (df.map (fun r => r.high - r.low)))

def bullishSlopeCount (df : List Row) : Nat :=
  ((slopeValues df).filter (fun s => slopeAboveThreshold s (slopeAtr df))).length

def bearishSlopeCount (df : List Row) : Nat :=
  ((slopeValues df).filter (fun s => slopeBelowThreshold s (slopeAtr df))).length

/-- The bias/strength selection of `_slope_analysis_trend`. -/
def slopeBias (bullish_slopes bearish_slopes : Nat) : String × String :=
  if 3 ≤ bullish_slopes then
    ("BULLISH", if bullish_slopes = 4 then "STRONG" else "MEDIUM")
  else if 3 ≤ bearish_slopes then
    ("BEARISH", if bearish_slopes = 4 then "STRONG" else "MEDIUM")
  else ("NEUTRAL", "WEAK")

/-- `EnhancedTrendAnalysis._slope_analysis_trend`. -/
def slopeAnalysisTrend (df : List Row) : TrendResult :=
  if df.length < SLOPE_LOOKBACK then neutralTrend
  else
    ⟨"SLOPE_ANALYSIS", (slopeBias (bullishSlopeCount df) (bearishSlopeCount df)).1,
      (slopeBias (bullishSlopeCount df) (bearishSlopeCount df)).2,
      slopeConfidence (bullishSlopeCount df) (bearishSlopeCount df)⟩

/-- The ROC contribution of `_momentum_trend`: ((last - prev)/prev)·100
mapped through the ±2/±1 buckets.  For prev = 0 the IEEE quotient is
±inf by the sign of last (NaN when last = 0), so the bucket tests reduce
to sign tests. -/
def rocScoreOf (df : List Row) : ℤ :=
  let closes := df.map (fun r => r.close)
  let n := closes.length
  let last := closes.getD (n - 1) 0
  let rocPrev := closes.getD (n - 1 - ROC_PERIOD) 0
  if rocPrev = 0 then (if last > 0 then 2 else if last < 0 then -2 else 0)
  else
    let roc := (last - rocPrev) / rocPrev * 100
    if roc > ROC_BULLISH_THRESHOLD then 2
    else if roc > 0 then 1
    else if roc < ROC_BEARISH_THRESHOLD then -2
    else if roc < 0 then -1
    else 0

/-- The RSI contribution of `_momentum_trend`, over the trailing rolling
means of gains and losses.  For loss = 0 the IEEE rs is +inf (rsi = 100)
when gain > 0 and NaN (no contribution) when gain = 0. -/
def rsiScoreOf (df : List Row) : ℤ :=
  let deltas := diffs (df.map (fun r => r.close))
  let gain := qmean (tailN RSI_PERIOD (deltas.map (fun d => if d > 0 then d else 0)))
  let loss := qmean (tailN RSI_PERIOD (deltas.map (fun d => if d < 0 then -d else 0)))
  if loss = 0 then (if gain > 0 then 1 else 0)
  else
    let rsi := 100 - 100 / (1 + gain / loss)
    if rsi > 60 then 1 else if rsi < 40 then -1 else 0

/-- The raw-momentum contribution of `_momentum_trend`. -/
def momScoreOf (df : List Row) : ℤ :=
  let closes := df.map (fun r => r.close)
  let n := closes.length
  let momentum := closes.getD (n - 1) 0 - closes.getD (n - 1 - MOMENTUM_PERIOD) 0
  if momentum > MOMENTUM_THRESHOLD then 1
  else if momentum < -MOMENTUM_THRESHOLD then -1
  else 0

def momentumScoreOf (df : List Row) : ℤ :=
  rocScoreOf df + rsiScoreOf df + momScoreOf df

/-- The bias/strength buckets of `_momentum_trend`. -/
def momentumBias (momentum_score : ℤ) : String × String :=
  if 3 ≤ momentum_score then ("BULLISH", "STRONG")
  else if 1 ≤ momentum_score then
    ("BULLISH", if 2 ≤ momentum_score then "MEDIUM" else "WEAK")
  else if momentum_score ≤ -3 then ("BEARISH", "STRONG")
  else if momentum_score ≤ -1 then
    ("BEARISH", if momentum_score ≤ -2 then "MEDIUM" else "WEAK")
  else ("NEUTRAL", "WEAK")

/-- `EnhancedTrendAnalysis._momentum_trend`. -/
def momentumTrend (df : List Row) : TrendResult :=
  if df.length < MOMENTUM_LOOKBACK then neutralTrend
  else
    ⟨"MOMENTUM_TREND", (momentumBias (momentumScoreOf df)).1,
      (momentumBias (momentumScoreOf df)).2,
      min (((momentumScoreOf df).natAbs : ℚ) * 15 + 40) 90⟩

/-- `TIMEFRAME_WEIGHTS.get(tf, 1.0)`. -/
def tfWeight (tf : String) : ℚ :=
  if tf = "daily" then 3 else if tf = "h4" then 2 else if tf = "h1" then 1 else 1

/-- The per-timeframe MA-alignment results of `_multi_timeframe_trend`
(empty frames skipped). -/
def timeframeTrends (mtf : List (String × List Row)) : List (String × TrendResult) :=
  (mtf.filter (fun p => ¬ p.2 = [])).map (fun p => (p.1, maAlignmentTrend p.2))

/-- The weighted net score of `_multi_timeframe_trend`. -/
def mtfWeightedScore (mtf : List (String × List Row)) : ℚ :=
  let tts := timeframeTrends mtf
  let weighted_raw := qsum (tts.map (fun p =>
    if p.2.bias = "BULLISH" then tfWeight p.1 * p.2.confidence / 100
    else if p.2.bias = "BEARISH" then -(tfWeight p.1 * p.2.confidence / 100)
    else 0))
  let total_weight := qsum (tts.map (fun p => tfWeight p.1))
  if total_weight > 0 then weighted_raw / total_weight else weighted_raw

/-- The threshold-band selection of `_multi_timeframe_trend`. -/
def mtfBias (weighted_score : ℚ) : String × String :=
  if weighted_score > MTF_BULLISH_THRESHOLD then
    ("BULLISH", if weighted_score > MTF_STRONG_THRESHOLD then "STRONG" else "MEDIUM")
  else if weighted_score < MTF_BEARISH_THRESHOLD then
    ("BEARISH", if weighted_score < -MTF_STRONG_THRESHOLD then "STRONG" else "MEDIUM")
  else ("NEUTRAL", "WEAK")

/-- `EnhancedTrendAnalysis._multi_timeframe_trend`. -/
def multiTimeframeTrend (df : List Row) (mtf : List (String × List Row)) : TrendResult :=
  if mtf = [] then maAlignmentTrend df
  else
    ⟨"MULTI_TIMEFRAME", (mtfBias (mtfWeightedScore mtf)).1,
      (mtfBias (mtfWeightedScore mtf)).2,
      min (|mtfWeightedScore mtf| * 100 + 40) 95⟩

def listMax : List ℚ → ℚ
  | [] => 0
  | x :: xs => xs.foldl max x

def listMin : List ℚ → ℚ
  | [] => 0
  | x :: xs => xs.foldl min x

/-- `EnhancedTrendAnalysis._identify_swing_points`. -/
def identifySwingPoints (series : List ℚ) (period : Nat) (point_type : String) :
    List (Nat × ℚ) :=
  if series.length < period * 2 + 1 then []
  else
    let idxs := (List.range series.length).filter
      (fun i => decide (period ≤ i) && decide (i < series.length - period))
    let swings := idxs.filterMap (fun i =>
      let window := (series.take (i + period + 1)).drop (i - period)
      let v := series.getD i 0
      if point_type = "high" then
        (if v = listMax window then some (i, v) else none)
      else
        (if v = listMin window then some (i, v) else none))
    tailN MAX_SWING_POINTS swings

/-- `EnhancedTrendAnalysis._analyze_market_structure` (bias, strength,
confidence). -/
def analyzeMarketStructure (swing_highs swing_lows : List (Nat × ℚ)) :
    String × String × ℚ :=
  if swing_highs.length < 2 ∨ swing_lows.length < 2 then ("NEUTRAL", "WEAK", 30)
  else
    let recent_highs : List ℚ := (tailN 2 swing_highs).map (fun p => p.2)
    let recent_lows : List ℚ := (tailN 2 swing_lows).map (fun p => p.2)
    let higher_highs := decide (recent_highs.getD 1 0 > recent_highs.getD 0 0)
    let higher_lows := decide (recent_lows.getD 1 0 > recent_lows.getD 0 0)
    let lower_highs := decide (recent_highs.getD 1 0 < recent_highs.getD 0 0)
    let lower_lows := decide (recent_lows.getD 1 0 < recent_lows.getD 0 0)
    if higher_highs && higher_lows then ("BULLISH", "STRONG", 80)
    else if higher_highs || higher_lows then ("BULLISH", "MEDIUM", 65)
    else if lower_highs && lower_lows then ("BEARISH", "STRONG", 80)
    else if lower_highs || lower_lows then ("BEARISH", "MEDIUM", 65)
    else ("NEUTRAL", "WEAK", 40)

/-- `EnhancedTrendAnalysis._market_structure_trend`. -/
def marketStructureTrend (df : List Row) : TrendResult :=
  if df.length < STRUCTURE_LOOKBACK then neutralTrend
  else
    let swing_highs := identifySwingPoints (df.map (fun r => r.high))
      SWING_DETECTION_PERIOD "high"
    let swing_lows := identifySwingPoints (df.map (fun r => r.low))
      SWING_DETECTION_PERIOD "low"
    let s := analyzeMarketStructure swing_highs swing_lows
    ⟨"MARKET_STRUCTURE", s.1, s.2.1, s.2.2⟩

/-- The component list run by `_composite_trend` (the embedded components
are total, so the source's skip-on-exception never fires). -/
def compositeComponents (df : List Row) (mtf : List (String × List Row)) :
    List TrendResult :=
  [maAlignmentTrend df, slopeAnalysisTrend df, momentumTrend df] ++
    (if mtf = [] then [] else [multiTimeframeTrend df mtf])

def bullishVotes (rs : List TrendResult) : Nat :=
  (rs.filter (fun r => r.bias == "BULLISH")).length

def bearishVotes (rs : List TrendResult) : Nat :=
  (rs.filter (fun r => r.bias == "BEARISH")).length

def weightedBullish (rs : List TrendResult) : ℚ :=
  qsum ((rs.filter (fun r => r.bias == "BULLISH")).map (fun r => r.confidence))

def weightedBearish (rs : List TrendResult) : ℚ :=
  qsum ((rs.filter (fun r => r.bias == "BEARISH")).map (fun r => r.confidence))

/-- The composite branch confidence: the weighted average of the winning
side's confidences, truncated by `int()` and capped at 95. -/
def compositeConfidence (votes : Nat) (weighted : ℚ) : ℚ :=
  ((min (pyInt (if 0 < votes then weighted / votes else 50)) 95 : ℤ) : ℚ)

/-- `EnhancedTrendAnalysis._composite_trend`. -/
def compositeTrend (df : List Row) (mtf : List (String × List Row)) : TrendResult :=
  if compositeComponents df mtf = [] then neutralTrend
  else if bearishVotes (compositeComponents df mtf) <
        bullishVotes (compositeComponents df mtf) ∨
      weightedBearish (compositeComponents df mtf) <
        weightedBullish (compositeComponents df mtf) then
    ⟨"COMPOSITE_TREND", "BULLISH",
      if 3 ≤ bullishVotes (compositeComponents df mtf) then "STRONG" else "MEDIUM",
      compositeConfidence (bullishVotes (compositeComponents df mtf))
        (weightedBullish (compositeComponents df mtf))⟩
  else if bullishVotes (compositeComponents df mtf) <
        bearishVotes (compositeComponents df mtf) ∨
      weightedBullish (compositeComponents df mtf) <
        weightedBearish (compositeComponents df mtf) then
    ⟨"COMPOSITE_TREND", "BEARISH",
      if 3 ≤ bearishVotes (compositeComponents df mtf) then "STRONG" else "MEDIUM",
      compositeConfidence (bearishVotes (compositeComponents df mtf))
        (weightedBearish (compositeComponents df mtf))⟩
  else
    ⟨"COMPOSITE_TREND", "NEUTRAL", "WEAK", ((min (pyInt 40) 95 : ℤ) : ℚ)⟩

/-- `EnhancedTrendAnalysis._calculate_trend_metrics`; `atr = none` models
the NaN rolling mean on fewer than 14 candles, and `atr > 0` is false for
NaN, zeroing the normalized separations as in the source. -/
structure TrendMetrics where
  ma_separation : ℚ
  price_trend_separation : ℚ
  current_price : ℚ
  fast_ma : ℚ
  slow_ma : ℚ
  trend_ma : ℚ
  atr : Option ℚ
deriving Repr, DecidableEq

def calcTrendMetrics (df : List Row) : Option TrendMetrics :=
  if df = [] then none
  else
    let latest := lastD df
    let fast_slow_sep := |latest.fast_ma - latest.slow_ma|
    let price_trend_sep := |latest.close - latest.trend_ma|
    let atr : Option ℚ :=
      if df.length < 14 then none
      else some (qmean (tailN 14 (df.map (fun r => r.high - r.low))))
    let norm := fun (s : ℚ) => match atr with
      | some a => if a > 0 then s / a else 0
      | none => 0
    some ⟨norm fast_slow_sep, norm price_trend_sep, latest.close,
      latest.fast_ma, latest.slow_ma, latest.trend_ma, atr⟩

/-- A trend-analysis result together with the common metrics merged in by
`get_trend_analysis`. -/
structure TrendFull where
  core : TrendResult
  metrics : Option TrendMetrics
deriving Repr, DecidableEq

def trendMethodNames : List String :=
  ["MA_ALIGNMENT", "SLOPE_ANALYSIS", "MARKET_STRUCTURE", "MOMENTUM_TREND",
   "MULTI_TIMEFRAME", "COMPOSITE_TREND"]

/-- The `trend_methods` dispatch table (fall-through: `COMPOSITE_TREND`,
the only remaining recognized name). -/
def trendDispatch (df : List Row) (mtf : List (String × List Row)) :
    String → TrendResult
  | "MA_ALIGNMENT" => maAlignmentTrend df
  | "SLOPE_ANALYSIS" => slopeAnalysisTrend df
  | "MARKET_STRUCTURE" => marketStructureTrend df
  | "MOMENTUM_TREND" => momentumTrend df
  | "MULTI_TIMEFRAME" => multiTimeframeTrend df mtf
  | _ => compositeTrend df mtf

/-- `EnhancedTrendAnalysis.get_trend_analysis`: unknown-method check
first, then dispatch and metric attachment. -/
def getTrendAnalysis (df : List Row) (method : String)
    (mtf : List (String × List Row)) : Except String TrendFull :=
  if method ∈ trendMethodNames then
    .ok ⟨trendDispatch df mtf method, calcTrendMetrics df⟩
  else .error ("Unknown trend method: " ++ method)

/-! ## Claim C4 (composite trend: majority vote by count, then by summed
confidence)

The composite combine condition `bv > sv or wb > ws` could in principle
let a larger bullish confidence sum override a strict bearish count
majority.  The lemmas below show the reachable confidence ranges of the
four component methods (bearish components are worth at least 40/85/55/70,
a single bullish component at most 80/90/90/95) make that override
impossible, so the code agrees with the count-first majority vote. -/

/-- The reachable range of one component result: a legal bias string,
nonnegative confidence, an upper bound when bullish and a lower bound
when bearish. -/
def TrendProfile (r : TrendResult) (bulHi beaLo : ℚ) : Prop :=
  (r.bias = "BULLISH" ∨ r.bias = "BEARISH" ∨ r.bias = "NEUTRAL") ∧
  0 ≤ r.confidence ∧
  (r.bias = "BULLISH" → r.confidence ≤ bulHi) ∧
  (r.bias = "BEARISH" → beaLo ≤ r.confidence)

theorem neutralTrend_profile (hi lo : ℚ) : TrendProfile neutralTrend hi lo := by
  refine ⟨Or.inr (Or.inr rfl), by norm_num [neutralTrend], ?_, ?_⟩ <;>
    exact fun h2 => absurd h2 (by decide)

theorem maConfidence_ge40 (s : Nat) : 40 ≤ maConfidence s 3 := by
  unfold maConfidence
  refine le_min ?_ (by norm_num)
  have : (0:ℚ) ≤ ((s : ℚ) / 3) * 40 := by positivity
  linarith

theorem maConfidence_le80 (s : Nat) (hs : s ≤ 3) : maConfidence s 3 ≤ 80 := by
  unfold maConfidence
  have hs3 : (s : ℚ) ≤ 3 := by exact_mod_cast hs
  have h1 : ((s : ℚ) / 3) * 40 ≤ 40 := by
    rw [div_mul_eq_mul_div, div_le_iff (by norm_num)]
    nlinarith
  calc min (40 + ((s : ℚ) / 3) * 40) 85 ≤ 40 + ((s : ℚ) / 3) * 40 := min_le_left _ _
    _ ≤ 80 := by linarith

theorem maAlignmentScore_le3 (df : List Row) : maAlignmentScore df ≤ 3 := by
  simp only [maAlignmentScore]
  split_ifs <;> omega

theorem maAlignmentBias_cases (s b : Nat) :
    (maAlignmentBias s b).1 = "BULLISH" ∨ (maAlignmentBias s b).1 = "BEARISH" ∨
      (maAlignmentBias s b).1 = "NEUTRAL" := by
  unfold maAlignmentBias
  split_ifs <;> simp

theorem maAlignmentTrend_profile (df : List Row) :
    TrendProfile (maAlignmentTrend df) 80 40 := by
  unfold maAlignmentTrend
  split_ifs with h
  · exact neutralTrend_profile 80 40
  · have hge := maConfidence_ge40 (maAlignmentScore df)
    have hle := maConfidence_le80 (maAlignmentScore df) (maAlignmentScore_le3 df)
    exact ⟨maAlignmentBias_cases _ _, by linarith, fun _ => hle, fun _ => hge⟩

theorem slopeConfidence_ge40 (bull bear : Nat) : 40 ≤ slopeConfidence bull bear := by
  unfold slopeConfidence
  refine le_min ?_ (by norm_num)
  have : (0:ℚ) ≤ (max bull bear : ℚ) * 15 := by positivity
  linarith

theorem slopeConfidence_le90 (bull bear : Nat) : slopeConfidence bull bear ≤ 90 :=
  min_le_right _ _

theorem slopeConfidence_ge85 (bull bear : Nat) (h : 3 ≤ bear) :
    85 ≤ slopeConfidence bull bear := by
  unfold slopeConfidence
  refine le_min ?_ (by norm_num)
  have h1 : (3 : ℚ) ≤ (max bull bear : ℚ) := by
    have : 3 ≤ max bull bear := le_trans h (le_max_right _ _)
    exact_mod_cast this
  linarith

theorem slopeBias_cases (bull bear : Nat) :
    (slopeBias bull bear).1 = "BULLISH" ∨ (slopeBias bull bear).1 = "BEARISH" ∨
      (slopeBias bull bear).1 = "NEUTRAL" := by
  unfold slopeBias
  split_ifs <;> simp

theorem slopeBias_bearish (bull bear : Nat)
    (h : (slopeBias bull bear).1 = "BEARISH") : 3 ≤ bear := by
  unfold slopeBias at h
  split_ifs at h <;> first | assumption | exact absurd h (by decide)

theorem slopeAnalysisTrend_profile (df : List Row) :
    TrendProfile (slopeAnalysisTrend df) 90 85 := by
  unfold slopeAnalysisTrend
  split_ifs with h
  · exact neutralTrend_profile 90 85
  · refine ⟨slopeBias_cases _ _, ?_, fun _ => slopeConfidence_le90 _ _, fun hb => ?_⟩
    · have := slopeConfidence_ge40 (bullishSlopeCount df) (bearishSlopeCount df)
      linarith
    · exact slopeConfidence_ge85 _ _ (slopeBias_bearish _ _ hb)

theorem momentumBias_cases (s : ℤ) :
    (momentumBias s).1 = "BULLISH" ∨ (momentumBias s).1 = "BEARISH" ∨
      (momentumBias s).1 = "NEUTRAL" := by
  unfold momentumBias
  split_ifs <;> simp

theorem momentumBias_bearish (s : ℤ) (h : (momentumBias s).1 = "BEARISH") :
    s ≤ -1 := by
  unfold momentumBias at h
  split_ifs at h <;> first | omega | exact absurd h (by decide)

theorem momentumTrend_profile (df : List Row) :
    TrendProfile (momentumTrend df) 90 55 := by
  unfold momentumTrend
  split_ifs with h
  · exact neutralTrend_profile 90 55
  · refine ⟨momentumBias_cases _, ?_, fun _ => min_le_right _ _, fun hb => ?_⟩
    · have h0 : (0:ℚ) ≤ ((momentumScoreOf df).natAbs : ℚ) * 15 + 40 := by positivity
      have := min_le_right (((momentumScoreOf df).natAbs : ℚ) * 15 + 40) (90:ℚ)
      refine le_min ?_ (by norm_num) |>.trans (le_refl _)
      exact h0
    · have hs := momentumBias_bearish _ hb
      have h1 : 1 ≤ (momentumScoreOf df).natAbs := by omega
      have h1q : (1 : ℚ) ≤ ((momentumScoreOf df).natAbs : ℚ) := by exact_mod_cast h1
      refine le_min ?_ (by norm_num)
      linarith

theorem mtfBias_cases (ws : ℚ) :
    (mtfBias ws).1 = "BULLISH" ∨ (mtfBias ws).1 = "BEARISH" ∨
      (mtfBias ws).1 = "NEUTRAL" := by
  unfold mtfBias
  split_ifs <;> simp

theorem mtfBias_bearish (ws : ℚ) (h : (mtfBias ws).1 = "BEARISH") :
    ws < MTF_BEARISH_THRESHOLD := by
  unfold mtfBias at h
  split_ifs at h <;> first | assumption | exact absurd h (by decide)

theorem multiTimeframeTrend_profile (df : List Row) (mtf : List (String × List Row))
    (hm : ¬ mtf = []) : TrendProfile (multiTimeframeTrend df mtf) 95 70 := by
  unfold multiTimeframeTrend
  rw [if_neg hm]
  refine ⟨mtfBias_cases _, ?_, fun _ => min_le_right _ _, fun hb => ?_⟩
  · have h0 : (0:ℚ) ≤ |mtfWeightedScore mtf| * 100 + 40 := by positivity
    exact le_min h0 (by norm_num)
  · have hws := mtfBias_bearish _ hb
    rw [MTF_BEARISH_THRESHOLD] at hws
    have habs : (3/10 : ℚ) ≤ |mtfWeightedScore mtf| := by
      rw [abs_of_neg (by linarith)]
      linarith
    refine le_min ?_ (by norm_num)
    linarith

theorem qsum_nil : qsum [] = 0 := rfl

theorem qsum_cons (x : ℚ) (xs : List ℚ) : qsum (x :: xs) = x + qsum xs := rfl

theorem bias_beq_bb : (("BEARISH" : String) == "BULLISH") = false := by decide

theorem bias_beq_nb : (("NEUTRAL" : String) == "BULLISH") = false := by decide

theorem bias_beq_bs : (("BULLISH" : String) == "BEARISH") = false := by decide

theorem bias_beq_ns : (("NEUTRAL" : String) == "BEARISH") = false := by decide

/-- A caseable form of `TrendProfile`. -/
theorem trendProfile_cases {r : TrendResult} {hi lo : ℚ}
    (h : TrendProfile r hi lo) :
    (r.bias = "BULLISH" ∧ r.confidence ≤ hi) ∨
      (r.bias = "BEARISH" ∧ lo ≤ r.confidence) ∨ r.bias = "NEUTRAL" := by
  obtain ⟨t, _, bu, be⟩ := h
  rcases t with e | e | e
  · exact Or.inl ⟨e, bu e⟩
  · exact Or.inr (Or.inl ⟨e, be e⟩)
  · exact Or.inr (Or.inr e)

/-- Without the multi-timeframe component: a strict bearish count
majority implies the bullish confidence sum cannot exceed the bearish
one (a single bullish component is worth at most 90, two bearish at
least 40 + 55). -/
theorem composite_wb_le_ws3 (r1 r2 r3 : TrendResult)
    (h1 : TrendProfile r1 80 40) (h2 : TrendProfile r2 90 85)
    (h3 : TrendProfile r3 90 55)
    (hv : bullishVotes [r1, r2, r3] < bearishVotes [r1, r2, r3]) :
    weightedBullish [r1, r2, r3] ≤ weightedBearish [r1, r2, r3] := by
  have c1 := h1.2.1
  have c2 := h2.2.1
  have c3 := h3.2.1
  unfold bullishVotes bearishVotes at hv
  unfold weightedBullish weightedBearish
  rcases trendProfile_cases h1 with ⟨e1, b1⟩ | ⟨e1, b1⟩ | e1 <;>
    rcases trendProfile_cases h2 with ⟨e2, b2⟩ | ⟨e2, b2⟩ | e2 <;>
    rcases trendProfile_cases h3 with ⟨e3, b3⟩ | ⟨e3, b3⟩ | e3 <;>
    simp [e1, e2, e3, bias_beq_bb, bias_beq_nb, bias_beq_bs, bias_beq_ns,
      qsum_cons, qsum_nil] at hv ⊢ <;>
    first | omega | linarith

/-- With the multi-timeframe component included (bearish components worth
at least 40/85/55/70, a single bullish one at most 80/90/90/95). -/
theorem composite_wb_le_ws4 (r1 r2 r3 r4 : TrendResult)
    (h1 : TrendProfile r1 80 40) (h2 : TrendProfile r2 90 85)
    (h3 : TrendProfile r3 90 55) (h4 : TrendProfile r4 95 70)
    (hv : bullishVotes [r1, r2, r3, r4] < bearishVotes [r1, r2, r3, r4]) :
    weightedBullish [r1, r2, r3, r4] ≤ weightedBearish [r1, r2, r3, r4] := by
  have c1 := h1.2.1
  have c2 := h2.2.1
  have c3 := h3.2.1
  have c4 := h4.2.1
  unfold bullishVotes bearishVotes at hv
  unfold weightedBullish weightedBearish
  rcases trendProfile_cases h1 with ⟨e1, b1⟩ | ⟨e1, b1⟩ | e1 <;>
    rcases trendProfile_cases h2 with ⟨e2, b2⟩ | ⟨e2, b2⟩ | e2 <;>
    rcases trendProfile_cases h3 with ⟨e3, b3⟩ | ⟨e3, b3⟩ | e3 <;>
    rcases trendProfile_cases h4 with ⟨e4, b4⟩ | ⟨e4, b4⟩ | e4 <;>
    simp [e1, e2, e3, e4, bias_beq_bb, bias_beq_nb, bias_beq_bs, bias_beq_ns,
      qsum_cons, qsum_nil] at hv ⊢ <;>
    first | omega | linarith

/-- On every actual component list, a strict bearish count majority rules
out a strictly larger bullish confidence sum. -/
theorem composite_override_impossible (df : List Row) (mtf : List (String × List Row))
    (hv : bullishVotes (compositeComponents df mtf) <
      bearishVotes (compositeComponents df mtf)) :
    weightedBullish (compositeComponents df mtf) ≤
      weightedBearish (compositeComponents df mtf) := by
  by_cases hm : mtf = []
  · have hcc : compositeComponents df mtf =
        [maAlignmentTrend df, slopeAnalysisTrend df, momentumTrend df] := by
      simp [compositeComponents, hm]
    rw [hcc] at hv ⊢
    exact composite_wb_le_ws3 _ _ _ (maAlignmentTrend_profile df)
      (slopeAnalysisTrend_profile df) (momentumTrend_profile df) hv
  · have hcc : compositeComponents df mtf =
        [maAlignmentTrend df, slopeAnalysisTrend df, momentumTrend df,
         multiTimeframeTrend df mtf] := by
      simp [compositeComponents, hm]
    rw [hcc] at hv ⊢
    exact composite_wb_le_ws4 _ _ _ _ (maAlignmentTrend_profile df)
      (slopeAnalysisTrend_profile df) (momentumTrend_profile df)
      (multiTimeframeTrend_profile df mtf hm) hv

theorem pyInt_intCast (n : ℤ) : pyInt ((n : ℤ) : ℚ) = n := by
  unfold pyInt
  split_ifs
  · exact Int.floor_intCast n
  · exact Int.ceil_intCast n

/-- The combine rule as the specification words it: majority vote by
component count first, ties broken by summed confidence, full ties
defaulting to NEUTRAL.  (Modelled from the spec for comparison with the
source's combine logic.) -/
def specCombineBias (bv sv : Nat) (wb ws : ℚ) : String :=
  if sv < bv then "BULLISH"
  else if bv < sv then "BEARISH"
  else if ws < wb then "BULLISH"
  else if wb < ws then "BEARISH"
  else "NEUTRAL"

theorem compositeComponents_ne_nil (df : List Row) (mtf : List (String × List Row)) :
    ¬ compositeComponents df mtf = [] := by
  unfold compositeComponents
  simp

/-- C4: the composite classifier's bias equals the count-first majority
vote with summed-confidence tie-break; a full tie yields
NEUTRAL/WEAK/confidence 40; and a strict bearish count majority is never
overridden into a BULLISH bias (the `or weighted_bullish >
weighted_bearish` disjunct cannot fire then, by the reachable component
confidence ranges). -/
theorem composite_trend_majority_vote (df : List Row) (mtf : List (String × List Row)) :
    ((compositeTrend df mtf).bias =
      specCombineBias (bullishVotes (compositeComponents df mtf))
        (bearishVotes (compositeComponents df mtf))
        (weightedBullish (compositeComponents df mtf))
        (weightedBearish (compositeComponents df mtf))) ∧
    (bullishVotes (compositeComponents df mtf) =
        bearishVotes (compositeComponents df mtf) →
      weightedBullish (compositeComponents df mtf) =
        weightedBearish (compositeComponents df mtf) →
      compositeTrend df mtf = ⟨"COMPOSITE_TREND", "NEUTRAL", "WEAK", 40⟩) ∧
    (bullishVotes (compositeComponents df mtf) <
        bearishVotes (compositeComponents df mtf) →
      ¬ (compositeTrend df mtf).bias = "BULLISH") := by
  have hne := compositeComponents_ne_nil df mtf
  have hbias : (compositeTrend df mtf).bias =
      specCombineBias (bullishVotes (compositeComponents df mtf))
        (bearishVotes (compositeComponents df mtf))
        (weightedBullish (compositeComponents df mtf))
        (weightedBearish (compositeComponents df mtf)) := by
    unfold compositeTrend specCombineBias
    rw [if_neg hne]
    by_cases hbv : bearishVotes (compositeComponents df mtf) <
        bullishVotes (compositeComponents df mtf)
    · rw [if_pos (Or.inl hbv), if_pos hbv]
    · rw [if_neg hbv]
      by_cases hvb : bullishVotes (compositeComponents df mtf) <
          bearishVotes (compositeComponents df mtf)
      · have hw := composite_override_impossible df mtf hvb
        rw [if_neg (by push_neg; exact ⟨not_lt.mp hbv, hw⟩), if_pos (Or.inl hvb), if_pos hvb]
      · rw [if_neg hvb]
        by_cases hww : weightedBearish (compositeComponents df mtf) <
            weightedBullish (compositeComponents df mtf)
        · rw [if_pos (Or.inr hww), if_pos hww]
        · rw [if_neg (by push_neg; exact ⟨not_lt.mp hbv, not_lt.mp hww⟩), if_neg hww]
          by_cases hwb : weightedBullish (compositeComponents df mtf) <
              weightedBearish (compositeComponents df mtf)
          · rw [if_pos (Or.inr hwb), if_pos hwb]
          · rw [if_neg (by push_neg; exact ⟨not_lt.mp hvb, not_lt.mp hwb⟩), if_neg hwb]
  refine ⟨hbias, ?_, ?_⟩
  · intro heq hweq
    unfold compositeTrend
    rw [if_neg hne]
    rw [if_neg (by rw [heq, hweq]; simp), if_neg (by rw [heq, hweq]; simp)]
    have h40 : ((min (pyInt 40) 95 : ℤ) : ℚ) = 40 := by
      have : ((40 : ℚ)) = (((40 : ℤ) : ℤ) : ℚ) := by norm_num
      rw [this, pyInt_intCast]
      norm_num
    rw [h40]
  · intro hvb
    rw [hbias]
    unfold specCombineBias
    rw [if_neg (by omega), if_pos hvb]
    decide

/-- C4 witness: on the empty series with no multi-timeframe data all
components are neutral, so both the vote and the confidence sums tie and
the composite result is NEUTRAL/WEAK/40. -/
theorem composite_trend_majority_vote_witness :
    compositeTrend [] [] = ⟨"COMPOSITE_TREND", "NEUTRAL", "WEAK", 40⟩ :=
  (composite_trend_majority_vote [] []).2.1 (by with_unfolding_all decide)
    (by with_unfolding_all rfl)

/-! ## zone_based_strategy/entry_timing.py -/

/-- The fields of an entry-timing result dict consumed by callers and
claims (the `reason`/detail strings are informational only). -/
structure EntryResult where
  signal : String
  method : String
  confidence : ℤ
  zone : Option String := none
  direction : Option String := none
deriving Repr, DecidableEq

def noEntry (method : String) : EntryResult := ⟨"NO_ENTRY", method, 0, none, none⟩

/-- `EntryTiming._is_price_in_zone`. -/
def isPriceInZone (price : ℚ) (z : Zone) : Bool :=
  decide (z.lower ≤ price) && decide (price ≤ z.upper)

/-- `EntryTiming._immediate_entry`: reads `df['close'].iloc[-1]` before
any guard, so it raises on the empty series. -/
def immediateEntry (df : List Row) (zones : List (String × Zone)) :
    Except String EntryResult :=
  match df.getLast? with
  | none => .error "IndexError: single positional indexer is out-of-bounds"
  | some last =>
    match zones.find? (fun p => isPriceInZone last.close p.2) with
    | some p => .ok ⟨"ENTRY", "IMMEDIATE", 30, some p.1, none⟩
    | none => .ok (noEntry "IMMEDIATE")

/-- The result of `_detect_zone_rejection`. -/
structure RejectionSignal where
  detected : Bool
  direction : String := ""
  wick_strength : ℚ := 0
  bounce_distance : ℚ := 0
deriving Repr, DecidableEq

/-- The candle body size used by `_detect_zone_rejection`. -/
def bodySize (latest : Row) : ℚ := |latest.close - latest.open_|

/-- The bullish-rejection wick of `_detect_zone_rejection`:
`open - low` for a green candle, `close - low` otherwise. -/
def lowerWick (latest : Row) : ℚ :=
  if latest.open_ < latest.close then latest.open_ - latest.low
  else latest.close - latest.low

/-- The bearish-rejection wick: `high - open` for a red candle,
`high - close` otherwise. -/
def upperWick (latest : Row) : ℚ :=
  if latest.close < latest.open_ then latest.high - latest.open_
  else latest.high - latest.close

/-- `EntryTiming._detect_zone_rejection` (the `prev_candle` argument is
accepted and unused, exactly as in the source; the two nested ifs per
side are flattened into one conjunction, falling through to the bearish
test exactly as the source does). -/
def detectZoneRejection (latest _prev : Row) (z : Zone) : RejectionSignal :=
  if latest.low ≤ z.lower ∧ z.center < latest.close ∧
      bodySize latest * WICK_REJECTION_RATIO < lowerWick latest then
    ⟨true, "BULLISH",
      (if 0 < bodySize latest then lowerWick latest / bodySize latest else 5),
      latest.close - latest.low⟩
  else if z.upper ≤ latest.high ∧ latest.close < z.center ∧
      bodySize latest * WICK_REJECTION_RATIO < upperWick latest then
    ⟨true, "BEARISH",
      (if 0 < bodySize latest then upperWick latest / bodySize latest else 5),
      latest.high - latest.close⟩
  else ⟨false, "", 0, 0⟩

/-- `EntryTiming._calculate_rejection_confidence`.  For a zero zone
height the IEEE bounce ratio is +inf (bonus capped at 20) when the bounce
is positive; otherwise the NaN or -inf reaches `int()`, which raises. -/
def calcRejectionConfidence (_candle : Row) (z : Zone) (rj : RejectionSignal) :
    Except String ℤ :=
  let wick_bonus := min (rj.wick_strength * 10) 30
  let zone_height := z.upper - z.lower
  if zone_height = 0 then
    if 0 < rj.bounce_distance then .ok (min (pyInt (45 + wick_bonus + 20)) 95)
    else .error "ValueError: cannot convert float NaN or infinity to integer"
  else
    let bounce_bonus := min (rj.bounce_distance / zone_height * 20) 20
    .ok (min (pyInt (45 + wick_bonus + bounce_bonus)) 95)

/-- The zone loop of `_zone_rejection_entry`: first detected rejection
wins. -/
def zrLoop (latest prev : Row) : List (String × Zone) → Except String EntryResult
  | [] => .ok (noEntry "ZONE_REJECTION")
  | (n, z) :: rest =>
    let rj := detectZoneRejection latest prev z
    if rj.detected then do
      let conf ← calcRejectionConfidence latest z rj
      .ok ⟨"ENTRY", "ZONE_REJECTION", conf, some n, some rj.direction⟩
    else zrLoop latest prev rest

/-- `EntryTiming._zone_rejection_entry`.  The fall-through match arm is
unreachable (guarded by `len(df) ≥ 3`). -/
def zoneRejectionEntry (df : List Row) (zones : List (String × Zone)) :
    Except String EntryResult :=
  if df.length < 3 then .ok (noEntry "ZONE_REJECTION")
  else
    match df.reverse with
    | latest :: prev :: _ => zrLoop latest prev zones
    | _ => .ok (noEntry "ZONE_REJECTION")

/-- The result of `_analyze_pullback`; `level` is the pullback low
(bullish) or high (bearish), `recovery_strength = none` models the IEEE
+inf obtained when the reference level is zero. -/
structure PullbackAnalysis where
  completed : Bool
  direction : String := ""
  level : ℚ := 0
  recovery_strength : Option ℚ := some 0
deriving Repr, DecidableEq

/-- `EntryTiming._analyze_pullback`. -/
def analyzePullback (df : List Row) : PullbackAnalysis :=
  if df.length < 3 then ⟨false, "", 0, some 0⟩
  else
    let highs := df.map (fun r => r.high)
    let lows := df.map (fun r => r.low)
    let closes := df.map (fun r => r.close)
    let n := closes.length
    let lastClose := closes.getD (n - 1) 0
    let recent_trend := if closes.getD (n - 3) 0 < lastClose then "BULLISH" else "BEARISH"
    if recent_trend = "BULLISH" then
      let pullback_low := listMin (tailN 3 lows)
      let current_high := highs.getD (n - 1) 0
      if pullback_low < lastClose ∧ pullback_low < current_high then
        ⟨true, "BULLISH", pullback_low,
          if pullback_low = 0 then none
          else some ((lastClose - pullback_low) / pullback_low)⟩
      else ⟨false, "", 0, some 0⟩
    else
      let pullback_high := listMax (tailN 3 highs)
      let current_low := lows.getD (n - 1) 0
      if lastClose < pullback_high ∧ current_low < pullback_high then
        ⟨true, "BEARISH", pullback_high,
          if pullback_high = 0 then none
          else some ((pullback_high - lastClose) / pullback_high)⟩
      else ⟨false, "", 0, some 0⟩

/-- `EntryTiming._is_pullback_in_zone`. -/
def isPullbackInZone (pa : PullbackAnalysis) (z : Zone) : Bool :=
  decide (z.lower ≤ pa.level) && decide (pa.level ≤ z.upper)

/-- `EntryTiming._calculate_pullback_confidence`; an infinite recovery
strength saturates the bonus at 30. -/
def calcPullbackConfidence (pa : PullbackAnalysis) : ℤ :=
  let strength_bonus : ℚ := match pa.recovery_strength with
    | none => 30
    | some r => min (r * 100) 30
  min (pyInt (50 + strength_bonus)) 85

/-- `EntryTiming._pullback_completion_entry`. -/
def pullbackCompletionEntry (df : List Row) (zones : List (String × Zone)) :
    Except String EntryResult :=
  if df.length < PULLBACK_LOOKBACK then .ok (noEntry "PULLBACK_COMPLETION")
  else
    let pa := analyzePullback (tailN PULLBACK_LOOKBACK df)
    if pa.completed then
      match zones.find? (fun p => isPullbackInZone pa p.2) with
      | some p => .ok ⟨"ENTRY", "PULLBACK_COMPLETION", calcPullbackConfidence pa,
          some p.1, some pa.direction⟩
      | none => .ok (noEntry "PULLBACK_COMPLETION")
    else .ok (noEntry "PULLBACK_COMPLETION")

/-- `EntryTiming._breakout_retest_entry`: `_detect_breakout_retest` is a
stub constantly reporting `{'detected': False}`, so the entry branch is
dead code and the method always yields NO_ENTRY once past its guard. -/
def breakoutRetestEntry (df : List Row) (_zones : List (String × Zone)) :
    Except String EntryResult :=
  if df.length < BREAKOUT_LOOKBACK then .ok (noEntry "BREAKOUT_RETEST")
  else .ok (noEntry "BREAKOUT_RETEST")

/-- `EntryTiming._has_volume_confirmation`. -/
def hasVolumeConfirmation (df : List Row) : Bool :=
  if df.length < 5 then false
  else
    decide (qmean (tailN 5 (df.map (fun r => r.volume))) *
      VOLUME_CONFIRMATION_MULTIPLIER < (df.map (fun r => r.volume)).getD (df.length - 1) 0)

/-- `EntryTiming._has_price_action_confirmation` (a strong close near the
high or low of the latest candle). -/
def hasPriceActionConfirmation (df : List Row) : Bool :=
  if df.length < 2 then false
  else
    let latest := lastD df
    let body_position :=
      if latest.high = latest.low then (1/2 : ℚ)
      else (latest.close - latest.low) / (latest.high - latest.low)
    decide (7/10 < body_position) || decide (body_position < 3/10)

/-- `EntryTiming._confluence_confirmation_entry`. -/
def confluenceConfirmationEntry (df : List Row) (zones : List (String × Zone)) :
    Except String EntryResult := do
  let zone_rejection ← zoneRejectionEntry df zones
  let pullback_completion ← pullbackCompletionEntry df zones
  let confirmations : List (String × ℤ) :=
    (if zone_rejection.signal = "ENTRY" then
      [("zone_rejection", zone_rejection.confidence)] else []) ++
    (if pullback_completion.signal = "ENTRY" then
      [("pullback_completion", pullback_completion.confidence)] else []) ++
    (if hasVolumeConfirmation df then [("volume", 15)] else []) ++
    (if hasPriceActionConfirmation df then [("price_action", 20)] else [])
  if MIN_CONFLUENCE_CONFIRMATIONS ≤ confirmations.length then
    .ok ⟨"ENTRY", "CONFLUENCE_CONFIRMATION",
      min ((confirmations.map (fun p => p.2)).foldr (· + ·) 0) 95, none, none⟩
  else .ok (noEntry "CONFLUENCE_CONFIRMATION")

def entryMethodNames : List String :=
  ["IMMEDIATE", "ZONE_REJECTION", "PULLBACK_COMPLETION", "BREAKOUT_RETEST",
   "CONFLUENCE_CONFIRMATION"]

/-- The `entry_methods` dispatch table (fall-through:
`CONFLUENCE_CONFIRMATION`, the only remaining recognized name). -/
def entryDispatch (df : List Row) (zones : List (String × Zone)) :
    String → Except String EntryResult
  | "IMMEDIATE" => immediateEntry df zones
  | "ZONE_REJECTION" => zoneRejectionEntry df zones
  | "PULLBACK_COMPLETION" => pullbackCompletionEntry df zones
  | "BREAKOUT_RETEST" => breakoutRetestEntry df zones
  | _ => confluenceConfirmationEntry df zones

/-- `EntryTiming.get_entry_signal`: unknown-method check first, then
dispatch. -/
def getEntrySignal (df : List Row) (zones : List (String × Zone))
    (method : String) : Except String EntryResult :=
  if method ∈ entryMethodNames then entryDispatch df zones method
  else .error ("Unknown entry method: " ++ method)

/-! ## C9: zone rejection scenario -/

/-- The source's green/red case split for the bullish wick computes
exactly `min(open, close) - low`. -/
theorem lowerWick_eq_min (r : Row) :
    lowerWick r = min r.open_ r.close - r.low := by
  unfold lowerWick
  by_cases h : r.open_ < r.close
  · rw [if_pos h, min_eq_left h.le]
  · rw [if_neg h, min_eq_right (not_lt.mp h)]

/-- If the first zone of the list triggers a detected rejection whose
confidence computes, the zone loop reports that entry. -/
theorem zrLoop_detected (latest prev : Row) (n : String) (z : Zone)
    (rest : List (String × Zone)) (c : ℤ)
    (hd : (detectZoneRejection latest prev z).detected = true)
    (hc : calcRejectionConfidence latest z (detectZoneRejection latest prev z) = .ok c) :
    zrLoop latest prev ((n, z) :: rest) =
      .ok ⟨"ENTRY", "ZONE_REJECTION", c, some n,
        some (detectZoneRejection latest prev z).direction⟩ := by
  simp only [zrLoop]
  rw [if_pos hd, hc]
  rfl

/-- The rejection confidence computes whenever the bounce distance is
positive (the `ValueError` branch needs a zero zone height and a
non-positive bounce). -/
theorem calcRejectionConfidence_ok (candle : Row) (z : Zone) (rj : RejectionSignal)
    (hb : 0 < rj.bounce_distance) :
    ∃ c, calcRejectionConfidence candle z rj = .ok c := by
  simp only [calcRejectionConfidence]
  split_ifs with h1
  · exact ⟨_, rfl⟩
  · exact ⟨_, rfl⟩

/-- C9: for every candle series of at least three candles (written
`pre ++ [prev, latest]` with `pre` nonempty) and a zone map holding the
zone `z`, if the latest candle's low is at or below the zone's lower
bound, its close is above the zone's center, and its lower wick
`min(open, close) - low` exceeds the body size times
WICK_REJECTION_RATIO, then the ZONE_REJECTION entry method returns
signal ENTRY with direction BULLISH. -/
theorem zone_rejection_bullish (pre : List Row) (prev latest : Row)
    (zname : String) (z : Zone) (hpre : pre ≠ [])
    (hlow : latest.low ≤ z.lower)
    (hclose : z.center < latest.close)
    (hwick : bodySize latest * WICK_REJECTION_RATIO <
      min latest.open_ latest.close - latest.low) :
    ∃ conf, getEntrySignal (pre ++ [prev, latest]) [(zname, z)] "ZONE_REJECTION" =
      .ok ⟨"ENTRY", "ZONE_REJECTION", conf, some zname, some "BULLISH"⟩ := by
  have hwick2 : bodySize latest * WICK_REJECTION_RATIO < lowerWick latest := by
    rw [lowerWick_eq_min]; exact hwick
  have hbounce : 0 < latest.close - latest.low := by
    have h0 : (0 : ℚ) ≤ bodySize latest * WICK_REJECTION_RATIO := by
      apply mul_nonneg (abs_nonneg _)
      unfold WICK_REJECTION_RATIO
      norm_num
    have h2 := min_le_right latest.open_ latest.close
    linarith
  have hrj : detectZoneRejection latest prev z = ⟨true, "BULLISH",
      (if 0 < bodySize latest then lowerWick latest / bodySize latest else 5),
      latest.close - latest.low⟩ := by
    unfold detectZoneRejection
    rw [if_pos ⟨hlow, hclose, hwick2⟩]
  obtain ⟨c, hc⟩ := calcRejectionConfidence_ok latest z
    (detectZoneRejection latest prev z) (by rw [hrj]; exact hbounce)
  refine ⟨c, ?_⟩
  have hmem : "ZONE_REJECTION" ∈ entryMethodNames := by decide
  have hlen : ¬ (pre ++ [prev, latest]).length < 3 := by
    have := List.length_pos.mpr hpre
    simp only [List.length_append, List.length_cons, List.length_nil]
    omega
  have hrev : (pre ++ [prev, latest]).reverse = latest :: prev :: pre.reverse := by
    simp
  unfold getEntrySignal
  rw [if_pos hmem]
  simp only [entryDispatch]
  unfold zoneRejectionEntry
  rw [if_neg hlen, hrev]
  show zrLoop latest prev [(zname, z)] = _
  rw [zrLoop_detected latest prev zname z [] c (by rw [hrj]) hc, hrj]

def w9Row : Row := ⟨1, 2, 1, 1, 0, 0, 0, 0⟩

def w9Latest : Row := ⟨2, 22/10, 1/2, 2, 0, 0, 0, 0⟩

def w9Zone : Zone := ⟨3/2, 2, 1, 15, "FIXED", 0, 0, "LOW"⟩

/-- Witness for C9 at a concrete three-candle series and zone. -/
theorem zone_rejection_bullish_witness :
    ∃ conf, getEntrySignal ([w9Row] ++ [w9Row, w9Latest]) [("fixed_zone_1", w9Zone)]
        "ZONE_REJECTION" =
      .ok ⟨"ENTRY", "ZONE_REJECTION", conf, some "fixed_zone_1", some "BULLISH"⟩ :=
  zone_rejection_bullish [w9Row] w9Row w9Latest "fixed_zone_1" w9Zone
    (by decide) (by with_unfolding_all decide) (by with_unfolding_all decide)
    (by with_unfolding_all decide)

/-! ## strategy_modules/price_action_confirmation.py

Pattern dicts are modelled by their consumed fields (`name`, `direction`,
`confidence`); the `description` and per-pattern extras (`wick_ratio`,
`gap_size`, ...) are informational only.  Result dicts are modelled by
`signal`/`confidence`/`patterns_found`/`pattern_count`/`method`; when the
source dict lacks `patterns_found` (the `_no_signal` dict, the
confluence-found dict), the field is the empty list, matching the falsy
`.get('patterns_found')` treatment in `_combine_analysis_results`.  The
`current_price`/`analysis_method`/`candles_analyzed` keys added at the
end of `analyze_price_action` are likewise informational. -/

structure Pattern where
  name : String
  direction : String
  confidence : ℤ
deriving Repr, DecidableEq

structure PAResult where
  signal : String
  confidence : ℤ
  patterns_found : List Pattern
  pattern_count : Nat
  method : String := ""
deriving Repr, DecidableEq

/-- `PriceActionConfirmation._no_signal` (no `method` key). -/
def noSignalPA : PAResult := ⟨"NO_SIGNAL", 0, [], 0, ""⟩

def zsum (xs : List ℤ) : ℤ := xs.foldr (· + ·) 0

/-- `_detect_single_candle_patterns`. -/
def singleCandlePatterns (c : Row) : List Pattern :=
  let body_size := |c.close - c.open_|
  let total_range := c.high - c.low
  let upper_wick := c.high - max c.open_ c.close
  let lower_wick := min c.open_ c.close - c.low
  if total_range = 0 then []
  else
    (if body_size < total_range * DOJI_BODY_RATIO then
      [⟨"Doji", "NEUTRAL", 40⟩] else []) ++
    (if body_size * HAMMER_WICK_RATIO < lower_wick ∧
        upper_wick < body_size * HAMMER_UPPER_WICK_RATIO then
      [⟨"Hammer", "BULLISH", 60⟩] else []) ++
    (if body_size * SHOOTING_STAR_WICK_RATIO < upper_wick ∧
        lower_wick < body_size * SHOOTING_STAR_LOWER_WICK_RATIO then
      [⟨"Shooting Star", "BEARISH", 60⟩] else []) ++
    (if total_range * MARUBOZU_BODY_RATIO < body_size then
      [⟨"Marubozu", if c.open_ < c.close then "BULLISH" else "BEARISH", 70⟩]
     else [])

/-- `_detect_double_candle_patterns`. -/
def doubleCandlePatterns (prev cur : Row) : List Pattern :=
  let prev_body := |prev.close - prev.open_|
  let current_body := |cur.close - cur.open_|
  (if prev.close < prev.open_ ∧ cur.open_ < cur.close ∧
      cur.open_ < prev.close ∧ prev.open_ < cur.close ∧
      prev_body * ENGULFING_SIZE_RATIO < current_body then
    [⟨"Bullish Engulfing", "BULLISH", 75⟩] else []) ++
  (if prev.open_ < prev.close ∧ cur.close < cur.open_ ∧
      prev.close < cur.open_ ∧ cur.close < prev.open_ ∧
      prev_body * ENGULFING_SIZE_RATIO < current_body then
    [⟨"Bearish Engulfing", "BEARISH", 75⟩] else [])

/-- `_compile_pattern_result`. -/
def compilePatternResult (patterns : List Pattern) (method : String) : PAResult :=
  if patterns.isEmpty then noSignalPA
  else
    let bullish := patterns.filter (fun p => p.direction == "BULLISH")
    let bearish := patterns.filter (fun p => p.direction == "BEARISH")
    if bearish.length < bullish.length then
      ⟨"BULLISH", min (zsum (bullish.map (fun p => p.confidence))) 100,
        patterns, patterns.length, method⟩
    else if bullish.length < bearish.length then
      ⟨"BEARISH", min (zsum (bearish.map (fun p => p.confidence))) 100,
        patterns, patterns.length, method⟩
    else ⟨"NEUTRAL", 40, patterns, patterns.length, method⟩

/-- `_basic_candlestick_patterns` (unlike `_compile_pattern_result` it
sums the confidences of ALL found patterns, not just the majority side). -/
def basicCandlestickPatterns (df : List Row) : PAResult :=
  if df.length < 2 then noSignalPA
  else
    let latest := lastD df
    let prev := df.getD (df.length - 2) default
    let patterns := singleCandlePatterns latest ++ doubleCandlePatterns prev latest
    if patterns.isEmpty then ⟨"NO_SIGNAL", 0, [], 0, "BASIC_PATTERNS"⟩
    else
      let bullish := patterns.filter (fun p => p.direction == "BULLISH")
      let bearish := patterns.filter (fun p => p.direction == "BEARISH")
      let total_confidence := min (zsum (patterns.map (fun p => p.confidence))) 100
      let signal :=
        if bearish.length < bullish.length then "BULLISH"
        else if bullish.length < bearish.length then "BEARISH"
        else "NEUTRAL"
      ⟨signal, total_confidence, patterns, patterns.length, "BASIC_PATTERNS"⟩

/-- `_detect_pin_bars` (reads only the latest candle of the slice). -/
def detectPinBars (df : List Row) : List Pattern :=
  if df.length < 1 then []
  else
    let latest := lastD df
    let body_size := |latest.close - latest.open_|
    let total_range := latest.high - latest.low
    let upper_wick := latest.high - max latest.open_ latest.close
    let lower_wick := min latest.open_ latest.close - latest.low
    if total_range = 0 then []
    else
      (if total_range * PIN_BAR_WICK_RATIO < lower_wick ∧
          upper_wick < total_range * PIN_BAR_OPPOSITE_WICK_RATIO ∧
          body_size < total_range * PIN_BAR_BODY_RATIO then
        [⟨"Bullish Pin Bar", "BULLISH", 80⟩] else []) ++
      (if total_range * PIN_BAR_WICK_RATIO < upper_wick ∧
          lower_wick < total_range * PIN_BAR_OPPOSITE_WICK_RATIO ∧
          body_size < total_range * PIN_BAR_BODY_RATIO then
        [⟨"Bearish Pin Bar", "BEARISH", 80⟩] else [])

/-- `_detect_engulfing_patterns`: all adjacent pairs of the slice (the
`'Engulfing' in name` filter is the identity on double-candle output). -/
def detectEngulfingPatterns : List Row → List Pattern
  | a :: b :: rest => doubleCandlePatterns a b ++ detectEngulfingPatterns (b :: rest)
  | _ => []

/-- `_detect_hammer_doji_patterns`: per-candle single patterns, keeping
only Hammer/Doji/Shooting Star (dropping Marubozu). -/
def detectHammerDojiPatterns (df : List Row) : List Pattern :=
  df.foldr
    (fun c acc =>
      (singleCandlePatterns c).filter
        (fun p => p.name == "Hammer" || p.name == "Doji" || p.name == "Shooting Star")
        ++ acc)
    []

/-- The morning/evening star tests of `_detect_star_patterns` on one
candle triple. -/
def starsOf (c1 c2 c3 : Row) : List Pattern :=
  (if c1.close < c1.open_ ∧
      |c2.close - c2.open_| < (c2.high - c2.low) * STAR_BODY_RATIO ∧
      c3.open_ < c3.close ∧ (c1.open_ + c1.close) / 2 < c3.close then
    [⟨"Morning Star", "BULLISH", 85⟩] else []) ++
  (if c1.open_ < c1.close ∧
      |c2.close - c2.open_| < (c2.high - c2.low) * STAR_BODY_RATIO ∧
      c3.close < c3.open_ ∧ c3.close < (c1.open_ + c1.close) / 2 then
    [⟨"Evening Star", "BEARISH", 85⟩] else [])

/-- `_detect_star_patterns`: all adjacent candle triples. -/
def detectStarPatterns : List Row → List Pattern
  | c1 :: c2 :: c3 :: rest => starsOf c1 c2 c3 ++ detectStarPatterns (c2 :: c3 :: rest)
  | _ => []

/-- `_is_price_near_zone`. -/
def isPriceNearZone (price : ℚ) (z : Zone) : Bool :=
  let zone_height := z.upper - z.lower
  let proximity_threshold := zone_height * ZONE_PROXIMITY_RATIO
  decide (|price - z.upper| ≤ proximity_threshold) ||
  decide (|price - z.lower| ≤ proximity_threshold) ||
  (decide (z.lower ≤ price) && decide (price ≤ z.upper))

/-- `_enhance_zone_context`: the first zone near the current price ends
the scan; directional patterns then get the zone bonus. -/
def enhanceZoneContext (patterns : List Pattern) (zones : List (String × Zone))
    (current_price : ℚ) : List Pattern :=
  patterns.map (fun p =>
    if zones.any (fun q => isPriceNearZone current_price q.2) then
      if p.direction == "BULLISH" || p.direction == "BEARISH" then
        { p with confidence := p.confidence + ZONE_CONTEXT_BONUS }
      else p
    else p)

/-- `_enhance_trend_context` (`bias` is the `'bias'` entry of the
trend-data dict). -/
def enhanceTrendContext (patterns : List Pattern) (bias : String) : List Pattern :=
  patterns.map (fun p =>
    if (p.direction == "BULLISH" && bias == "BULLISH") ||
        (p.direction == "BEARISH" && bias == "BEARISH") then
      { p with confidence := p.confidence + TREND_ALIGNMENT_BONUS }
    else p)

/-- `_reversal_patterns`; `trend_data = none` models passing no
trend-data dict (the `bias` default `'NEUTRAL'` applies to a present
dict missing the key, which the pipeline never builds). -/
def reversalPatterns (df : List Row) (zones : List (String × Zone))
    (trend_data : Option String) : PAResult :=
  if df.length < REVERSAL_PATTERN_LOOKBACK then noSignalPA
  else
    let recent := tailN REVERSAL_PATTERN_LOOKBACK df
    let pats := detectPinBars recent ++ detectEngulfingPatterns recent ++
      detectHammerDojiPatterns recent ++ detectStarPatterns recent
    let pats :=
      if ¬ zones.isEmpty ∧ ¬ pats.isEmpty then
        enhanceZoneContext pats zones (lastD df).close
      else pats
    let pats :=
      match trend_data with
      | some bias => if ¬ pats.isEmpty then enhanceTrendContext pats bias else pats
      | none => pats
    compilePatternResult pats "REVERSAL_PATTERNS"

/-- `_detect_flag_patterns`. -/
def detectFlagPatterns (df : List Row) : List Pattern :=
  if df.length < FLAG_PATTERN_MIN_CANDLES then []
  else
    let recent_range := listMax (df.map (fun r => r.high)) -
      listMin (df.map (fun r => r.low))
    let recent_bodies := qmean (df.map (fun r => |r.close - r.open_|))
    if recent_bodies < recent_range * FLAG_CONSOLIDATION_RATIO then
      let start_price := (df.map (fun r => r.close)).getD 0 0
      let end_price := (lastD df).close
      if start_price * (1 + FLAG_TREND_THRESHOLD) < end_price then
        [⟨"Flag Pattern", "BULLISH", 65⟩]
      else if end_price < start_price * (1 - FLAG_TREND_THRESHOLD) then
        [⟨"Flag Pattern", "BEARISH", 65⟩]
      else []
    else []

/-- `_detect_inside_bar_continuation`. -/
def detectInsideBarContinuation (df : List Row) : List Pattern :=
  if df.length < 2 then []
  else
    let prev := df.getD (df.length - 2) default
    let cur := lastD df
    if cur.high ≤ prev.high ∧ prev.low ≤ cur.low then
      [⟨"Inside Bar", "CONTINUATION", 50⟩]
    else []

/-- `_detect_breakout_patterns` (note `tail(BREAKOUT_LOOKBACK - 1)`
still contains the latest candle, so for nonnegative prices the
thresholds are unreachable — embedded faithfully regardless). -/
def detectBreakoutPatterns (df : List Row) : List Pattern :=
  if df.length < BREAKOUT_LOOKBACK then []
  else
    let recent_high := listMax (tailN (BREAKOUT_LOOKBACK - 1) (df.map (fun r => r.high)))
    let recent_low := listMin (tailN (BREAKOUT_LOOKBACK - 1) (df.map (fun r => r.low)))
    let current_high := (lastD df).high
    let current_low := (lastD df).low
    (if recent_high * (1 + BREAKOUT_THRESHOLD) < current_high then
      [⟨"Bullish Breakout", "BULLISH", 70⟩] else []) ++
    (if current_low < recent_low * (1 - BREAKOUT_THRESHOLD) then
      [⟨"Bearish Breakdown", "BEARISH", 70⟩] else [])

/-- `_continuation_patterns` (`_detect_pennant_patterns` is a stub
returning the empty list). -/
def continuationPatterns (df : List Row) : PAResult :=
  if df.length < CONTINUATION_PATTERN_LOOKBACK then noSignalPA
  else
    let recent := tailN CONTINUATION_PATTERN_LOOKBACK df
    compilePatternResult
      (detectFlagPatterns recent ++ detectInsideBarContinuation recent ++
        detectBreakoutPatterns recent)
      "CONTINUATION_PATTERNS"

/-- `_detect_strong_close_patterns`. -/
def detectStrongClosePatterns (df : List Row) : List Pattern :=
  let latest := lastD df
  let total_range := latest.high - latest.low
  if total_range = 0 then []
  else
    let close_position := (latest.close - latest.low) / total_range
    if STRONG_CLOSE_THRESHOLD < close_position then
      [⟨"Strong Bullish Close", "BULLISH", 60⟩]
    else if close_position < 1 - STRONG_CLOSE_THRESHOLD then
      [⟨"Strong Bearish Close", "BEARISH", 60⟩]
    else []

/-- `_detect_gap_patterns`.  The gap size divides by `prev.close`; in the
gap-up branch the numerator is positive, so a zero previous close gives
IEEE `+inf`, which exceeds the threshold (same for gap-down). -/
def detectGapPatterns (df : List Row) : List Pattern :=
  if df.length < 2 then []
  else
    let prev := df.getD (df.length - 2) default
    let cur := lastD df
    if prev.high < cur.low then
      if prev.close = 0 ∨ MIN_GAP_SIZE < (cur.low - prev.high) / prev.close then
        [⟨"Gap Up", "BULLISH", 65⟩]
      else []
    else if cur.high < prev.low then
      if prev.close = 0 ∨ MIN_GAP_SIZE < (prev.low - cur.high) / prev.close then
        [⟨"Gap Down", "BEARISH", 65⟩]
      else []
    else []

/-- `_detect_volume_patterns` (the `volume` column always exists here;
the momentum slice has 8 rows < VOLUME_PATTERN_LOOKBACK = 10, so inside
the pipeline this always returns the empty list). -/
def detectVolumePatterns (df : List Row) : List Pattern :=
  if df.length < VOLUME_PATTERN_LOOKBACK then []
  else
    let latest_volume := (lastD df).volume
    let avg_volume := qmean (tailN VOLUME_PATTERN_LOOKBACK (df.map (fun r => r.volume)))
    if avg_volume * HIGH_VOLUME_MULTIPLIER < latest_volume then
      [⟨"High Volume Confirmation", "CONFIRMATION", 25⟩]
    else []

/-- `_detect_momentum_divergence`.  The momentum divides by the first
close of the window; a zero first close gives IEEE `±inf` (passes the
threshold, sign decides the direction) or NaN when the last close is
also zero (fails it). -/
def detectMomentumDivergence (df : List Row) : Option Pattern :=
  if df.length < DIVERGENCE_LOOKBACK then none
  else
    let closes := tailN DIVERGENCE_LOOKBACK (df.map (fun r => r.close))
    let first := closes.getD 0 0
    let last := closes.getD (closes.length - 1) 0
    if first = 0 then
      if 0 < last then some ⟨"Momentum Pattern", "BULLISH", 55⟩
      else if last < 0 then some ⟨"Momentum Pattern", "BEARISH", 55⟩
      else none
    else
      let price_momentum := (last - first) / first
      if MOMENTUM_DIVERGENCE_THRESHOLD < |price_momentum| then
        some ⟨"Momentum Pattern",
          if 0 < price_momentum then "BULLISH" else "BEARISH", 55⟩
      else none

/-- `_momentum_patterns` (divergence runs on the full frame, the other
detectors on the 8-candle slice). -/
def momentumPatterns (df : List Row) : PAResult :=
  if df.length < MOMENTUM_PATTERN_LOOKBACK then noSignalPA
  else
    let recent := tailN MOMENTUM_PATTERN_LOOKBACK df
    compilePatternResult
      (detectStrongClosePatterns recent ++ detectGapPatterns recent ++
        detectVolumePatterns recent ++ (detectMomentumDivergence df).toList)
      "MOMENTUM_PATTERNS"

/-- A directional confluence group found by `_find_pattern_confluences`. -/
structure PatternConfluence where
  direction : String
  pattern_count : Nat
  combined_confidence : ℤ
deriving Repr, DecidableEq

/-- `_find_pattern_confluences`. -/
def findPatternConfluences (patterns : List Pattern) : List PatternConfluence :=
  let bullish := patterns.filter (fun p => p.direction == "BULLISH")
  let bearish := patterns.filter (fun p => p.direction == "BEARISH")
  (if MIN_CONFLUENCE_PATTERNS ≤ bullish.length then
    [⟨"BULLISH", bullish.length,
      min (zsum (bullish.map (fun p => p.confidence))) 100⟩] else []) ++
  (if MIN_CONFLUENCE_PATTERNS ≤ bearish.length then
    [⟨"BEARISH", bearish.length,
      min (zsum (bearish.map (fun p => p.confidence))) 100⟩] else [])

/-- `_calculate_confluence_score` (`max` over a nonempty list at every
call site reaching it). -/
def calculateConfluenceScore (cs : List PatternConfluence) : ℤ :=
  if cs.isEmpty then 0
  else
    let max_confidence :=
      ((cs.map (fun c => c.combined_confidence)).maximum?).getD 0
    min (max_confidence + ((cs.length - 1 : Nat) : ℤ) * MULTIPLE_CONFLUENCE_BONUS) 100

/-- `_confluence_patterns` (the confluence-found dict carries no
`patterns_found`/`pattern_count` keys, modelled as `[]`/`0`). -/
def confluencePatterns (df : List Row) (zones : List (String × Zone))
    (trend_data : Option String) : PAResult :=
  let all_patterns := (basicCandlestickPatterns df).patterns_found ++
    (reversalPatterns df zones trend_data).patterns_found ++
    (momentumPatterns df).patterns_found
  let confluences := findPatternConfluences all_patterns
  if confluences.isEmpty then
    compilePatternResult (all_patterns.take 3) "CONFLUENCE_PATTERNS"
  else
    let bullish := confluences.filter (fun c => c.direction == "BULLISH")
    let bearish := confluences.filter (fun c => c.direction == "BEARISH")
    let signal :=
      if bearish.length < bullish.length then "BULLISH"
      else if bullish.length < bearish.length then "BEARISH"
      else "NEUTRAL"
    ⟨signal, calculateConfluenceScore confluences, [], 0, "CONFLUENCE_PATTERNS"⟩

/-- `_comprehensive_analysis` (runs the five other methods in dict
insertion order; none of them raises, so the per-method `try/except` is
inert, and `method` is overwritten to COMPREHENSIVE at the end). -/
def comprehensiveAnalysis (df : List Row) (zones : List (String × Zone))
    (trend_data : Option String) : PAResult :=
  let results := [basicCandlestickPatterns df,
    reversalPatterns df zones trend_data,
    continuationPatterns df,
    momentumPatterns df,
    confluencePatterns df zones trend_data]
  let all_patterns := (results.map (fun r => r.patterns_found)).flatten
  let combined :=
    if all_patterns.isEmpty then noSignalPA
    else compilePatternResult all_patterns "COMPREHENSIVE"
  { combined with method := "COMPREHENSIVE" }

def paMethodNames : List String :=
  ["BASIC_PATTERNS", "REVERSAL_PATTERNS", "CONTINUATION_PATTERNS",
   "MOMENTUM_PATTERNS", "CONFLUENCE_PATTERNS", "COMPREHENSIVE"]

/-- The `pattern_methods` dispatch table (fall-through: COMPREHENSIVE,
the only remaining recognized name). -/
def paDispatch (df : List Row) (zones : List (String × Zone))
    (trend_data : Option String) : String → PAResult
  | "BASIC_PATTERNS" => basicCandlestickPatterns df
  | "REVERSAL_PATTERNS" => reversalPatterns df zones trend_data
  | "CONTINUATION_PATTERNS" => continuationPatterns df
  | "MOMENTUM_PATTERNS" => momentumPatterns df
  | "CONFLUENCE_PATTERNS" => confluencePatterns df zones trend_data
  | _ => comprehensiveAnalysis df zones trend_data

/-- `PriceActionConfirmation.analyze_price_action`: unknown-method check
first, then the `df.empty or len(df) < MIN_CANDLES_FOR_PATTERNS` guard
(the disjunction collapses to `len(df) < 5`). -/
def analyzePriceAction (df : List Row) (zones : List (String × Zone))
    (trend_data : Option String) (method : String) : Except String PAResult :=
  if method ∈ paMethodNames then
    if df.length < MIN_CANDLES_FOR_PATTERNS then .ok noSignalPA
    else .ok (paDispatch df zones trend_data method)
  else .error ("Unknown price action method: " ++ method)

/-! ## C5: single doji candle under BASIC_PATTERNS -/

/-- The last row of `pre ++ [a, b]` is `b`. -/
theorem lastD_append_two (pre : List Row) (a b : Row) :
    lastD (pre ++ [a, b]) = b := by
  unfold lastD
  have h : pre ++ [a, b] = (pre ++ [a]) ++ [b] := by simp
  rw [h, List.getLast?_concat]
  rfl

/-- The second-to-last row of `pre ++ [a, b]` is `a`. -/
theorem getD_second_last (pre : List Row) (a b : Row) :
    (pre ++ [a, b]).getD ((pre ++ [a, b]).length - 2) default = a := by
  have hl : (pre ++ [a, b]).length - 2 = pre.length := by
    simp
  rw [hl]
  induction pre with
  | nil => rfl
  | cons x xs ih => simpa [List.getD_cons_succ] using ih

def wDoji : Row := ⟨1, 2, 0, 1, 0, 0, 0, 0⟩

/-- C5 counterexample: the series consisting of the single doji `wDoji`
(open = close = 1, high = 2, low = 0) is caught by the
`len(df) < MIN_CANDLES_FOR_PATTERNS` guard of `analyze_price_action`, so
BASIC_PATTERNS reports NO_SIGNAL with confidence 0 and no pattern at
all — no Doji with direction NEUTRAL and confidence 40 is registered. -/
theorem doji_single_no_signal :
    analyzePriceAction [wDoji] [] none "BASIC_PATTERNS" =
      .ok ⟨"NO_SIGNAL", 0, [], 0, ""⟩ := by
  with_unfolding_all rfl

/-- C5 (amended): a doji candle (open = close strictly between low and
high) as the LATEST candle of a series long enough to pass the 5-candle
gate makes BASIC_PATTERNS register exactly the Doji pattern with
direction NEUTRAL and confidence 40, and — it being the only pattern
found — the overall result has signal NEUTRAL and confidence 40. -/
theorem doji_basic_patterns (pre : List Row) (prev doji : Row)
    (zones : List (String × Zone)) (trend_data : Option String)
    (hlen : 5 ≤ (pre ++ [prev, doji]).length)
    (heq : doji.open_ = doji.close)
    (hlow : doji.low < doji.open_) (hhigh : doji.open_ < doji.high) :
    analyzePriceAction (pre ++ [prev, doji]) zones trend_data "BASIC_PATTERNS" =
      .ok ⟨"NEUTRAL", 40, [⟨"Doji", "NEUTRAL", 40⟩], 1, "BASIC_PATTERNS"⟩ := by
  have hrange : 0 < doji.high - doji.low := by linarith
  have hbody : |doji.close - doji.open_| = 0 := by
    rw [heq, sub_self, abs_zero]
  have hsingle : singleCandlePatterns doji = [⟨"Doji", "NEUTRAL", 40⟩] := by
    simp only [singleCandlePatterns]
    rw [if_neg (by intro h; rw [h] at hrange; exact lt_irrefl 0 hrange)]
    rw [if_pos (by
      rw [hbody]
      unfold DOJI_BODY_RATIO
      nlinarith)]
    rw [if_neg (by
      intro h
      have h2 := h.2
      rw [hbody, zero_mul, heq, max_self] at h2
      have : doji.close < doji.high := heq ▸ hhigh
      linarith)]
    rw [if_neg (by
      intro h
      have h2 := h.2
      rw [hbody, zero_mul, heq, min_self] at h2
      have : doji.low < doji.close := heq ▸ hlow
      linarith)]
    rw [if_neg (by
      intro h
      rw [hbody] at h
      unfold MARUBOZU_BODY_RATIO at h
      nlinarith)]
    rfl
  have hdouble : doubleCandlePatterns prev doji = [] := by
    simp only [doubleCandlePatterns]
    rw [if_neg (fun h => absurd h.2.1 (by rw [heq]; exact lt_irrefl _))]
    rw [if_neg (fun h => absurd h.2.1 (by rw [heq]; exact lt_irrefl _))]
    rfl
  have hlast : lastD (pre ++ [prev, doji]) = doji := lastD_append_two pre prev doji
  have hsec : (pre ++ [prev, doji]).getD ((pre ++ [prev, doji]).length - 2) default =
      prev := getD_second_last pre prev doji
  unfold analyzePriceAction
  rw [if_pos (by decide : "BASIC_PATTERNS" ∈ paMethodNames)]
  rw [if_neg (by unfold MIN_CANDLES_FOR_PATTERNS; omega)]
  simp only [paDispatch]
  simp only [basicCandlestickPatterns]
  rw [if_neg (by simp only [List.length_append, List.length_cons, List.length_nil]; omega)]
  rw [hlast, hsec, hsingle, hdouble]
  with_unfolding_all rfl

def wFill : Row := ⟨1, 2, 1, 1, 0, 0, 0, 0⟩

/-- Witness for C5's amended theorem at a concrete 5-candle series. -/
theorem doji_basic_patterns_witness :
    analyzePriceAction ([wFill, wFill, wFill] ++ [wFill, wDoji]) [] none
        "BASIC_PATTERNS" =
      .ok ⟨"NEUTRAL", 40, [⟨"Doji", "NEUTRAL", 40⟩], 1, "BASIC_PATTERNS"⟩ :=
  doji_basic_patterns [wFill, wFill, wFill] wFill wDoji [] none
    (by decide) (by with_unfolding_all rfl) (by with_unfolding_all decide)
    (by with_unfolding_all decide)

/-! ## C3: degraded results on short series -/

/-- C3 counterexample: the IMMEDIATE entry method dereferences
`df['close'].iloc[-1]` before any length guard, so the empty series
raises instead of returning the degraded NO_ENTRY result. -/
theorem immediate_entry_raises :
    getEntrySignal [] [] "IMMEDIATE" =
      .error "IndexError: single positional indexer is out-of-bounds" := by
  with_unfolding_all rfl

/-- C3 (amended): below the lookbacks, the guarded stages degrade
gracefully: every trend method on a series shorter than SLOPE_LOOKBACK
(with no multi-timeframe data) yields bias NEUTRAL, strength WEAK,
confidence ≤ 40; every zone method on the empty series yields the empty
zone map; every price-action method below MIN_CANDLES_FOR_PATTERNS
yields NO_SIGNAL with confidence 0; and the four guarded entry methods
below their lookbacks yield NO_ENTRY with confidence 0.  (IMMEDIATE is
the exception — see the counterexample.) -/
theorem degraded_results :
    (∀ m ∈ trendMethodNames, ∀ df : List Row, df.length < SLOPE_LOOKBACK →
      ∃ t, getTrendAnalysis df m [] = .ok t ∧ t.core.bias = "NEUTRAL" ∧
        t.core.strength = "WEAK" ∧ t.core.confidence ≤ 40) ∧
    (∀ m ∈ zoneMethodNames, ∀ td, createZones [] m td = .ok []) ∧
    (∀ m ∈ paMethodNames, ∀ df : List Row, ∀ zones td,
      df.length < MIN_CANDLES_FOR_PATTERNS →
      analyzePriceAction df zones td m = .ok noSignalPA) ∧
    (∀ df : List Row, ∀ zones, df.length < 3 →
      getEntrySignal df zones "ZONE_REJECTION" = .ok (noEntry "ZONE_REJECTION")) ∧
    (∀ df : List Row, ∀ zones, df.length < PULLBACK_LOOKBACK →
      getEntrySignal df zones "PULLBACK_COMPLETION" =
        .ok (noEntry "PULLBACK_COMPLETION")) ∧
    (∀ df : List Row, ∀ zones, df.length < BREAKOUT_LOOKBACK →
      getEntrySignal df zones "BREAKOUT_RETEST" = .ok (noEntry "BREAKOUT_RETEST")) ∧
    (∀ df : List Row, ∀ zones, df.length < 2 →
      getEntrySignal df zones "CONFLUENCE_CONFIRMATION" =
        .ok (noEntry "CONFLUENCE_CONFIRMATION")) := by
  refine ⟨?_, ?_, ?_, ?_, ?_, ?_, ?_⟩
  · intro m hm df hdf
    have hma : maAlignmentTrend df = neutralTrend := by
      unfold maAlignmentTrend
      rw [if_pos (Or.inr (by
        unfold SLOPE_LOOKBACK at hdf
        unfold TREND_MA_PERIOD
        omega))]
    have hslope : slopeAnalysisTrend df = neutralTrend := by
      unfold slopeAnalysisTrend
      rw [if_pos hdf]
    have hstruct : marketStructureTrend df = neutralTrend := by
      unfold marketStructureTrend
      rw [if_pos (by
        unfold SLOPE_LOOKBACK at hdf
        unfold STRUCTURE_LOOKBACK
        omega)]
    have hmom : momentumTrend df = neutralTrend := by
      unfold momentumTrend
      rw [if_pos (by
        unfold SLOPE_LOOKBACK at hdf
        unfold MOMENTUM_LOOKBACK
        omega)]
    have hmtf : multiTimeframeTrend df [] = neutralTrend := by
      unfold multiTimeframeTrend
      rw [if_pos rfl]
      exact hma
    have hcomp : compositeTrend df [] = ⟨"COMPOSITE_TREND", "NEUTRAL", "WEAK", 40⟩ := by
      have hcc : compositeComponents df [] = [neutralTrend, neutralTrend, neutralTrend] := by
        unfold compositeComponents
        rw [hma, hslope, hmom]
        simp
      unfold compositeTrend
      rw [hcc]
      with_unfolding_all rfl
    simp only [trendMethodNames, List.mem_cons, List.not_mem_nil, or_false] at hm
    rcases hm with h | h | h | h | h | h
    all_goals subst h
    · refine ⟨⟨neutralTrend, calcTrendMetrics df⟩, ?_, rfl, rfl, by
        unfold neutralTrend
        norm_num⟩
      unfold getTrendAnalysis
      rw [if_pos (by decide)]
      simp only [trendDispatch]
      rw [hma]
    · refine ⟨⟨neutralTrend, calcTrendMetrics df⟩, ?_, rfl, rfl, by
        unfold neutralTrend
        norm_num⟩
      unfold getTrendAnalysis
      rw [if_pos (by decide)]
      simp only [trendDispatch]
      rw [hslope]
    · refine ⟨⟨neutralTrend, calcTrendMetrics df⟩, ?_, rfl, rfl, by
        unfold neutralTrend
        norm_num⟩
      unfold getTrendAnalysis
      rw [if_pos (by decide)]
      simp only [trendDispatch]
      rw [hstruct]
    · refine ⟨⟨neutralTrend, calcTrendMetrics df⟩, ?_, rfl, rfl, by
        unfold neutralTrend
        norm_num⟩
      unfold getTrendAnalysis
      rw [if_pos (by decide)]
      simp only [trendDispatch]
      rw [hmom]
    · refine ⟨⟨neutralTrend, calcTrendMetrics df⟩, ?_, rfl, rfl, by
        unfold neutralTrend
        norm_num⟩
      unfold getTrendAnalysis
      rw [if_pos (by decide)]
      simp only [trendDispatch]
      rw [hmtf]
    · refine ⟨⟨⟨"COMPOSITE_TREND", "NEUTRAL", "WEAK", 40⟩, calcTrendMetrics df⟩,
        ?_, rfl, rfl, by norm_num⟩
      unfold getTrendAnalysis
      rw [if_pos (by decide)]
      simp only [trendDispatch]
      rw [hcomp]
      with_unfolding_all rfl
  · intro m hm td
    unfold createZones
    rw [if_pos hm, if_pos rfl]
  · intro m hm df zones td hdf
    unfold analyzePriceAction
    rw [if_pos hm, if_pos hdf]
  · intro df zones hdf
    unfold getEntrySignal
    rw [if_pos (by decide)]
    simp only [entryDispatch]
    unfold zoneRejectionEntry
    rw [if_pos hdf]
  · intro df zones hdf
    unfold getEntrySignal
    rw [if_pos (by decide)]
    simp only [entryDispatch]
    unfold pullbackCompletionEntry
    rw [if_pos hdf]
  · intro df zones hdf
    unfold getEntrySignal
    rw [if_pos (by decide)]
    simp only [entryDispatch]
    unfold breakoutRetestEntry
    rw [if_pos hdf]
  · intro df zones hdf
    have hzr : zoneRejectionEntry df zones = .ok (noEntry "ZONE_REJECTION") := by
      unfold zoneRejectionEntry
      rw [if_pos (by omega)]
    have hpb : pullbackCompletionEntry df zones = .ok (noEntry "PULLBACK_COMPLETION") := by
      unfold pullbackCompletionEntry
      rw [if_pos (by unfold PULLBACK_LOOKBACK; omega)]
    have hvol : hasVolumeConfirmation df = false := by
      unfold hasVolumeConfirmation
      rw [if_pos (by omega)]
    have hpa : hasPriceActionConfirmation df = false := by
      unfold hasPriceActionConfirmation
      rw [if_pos hdf]
    unfold getEntrySignal
    rw [if_pos (by decide)]
    simp only [entryDispatch]
    unfold confluenceConfirmationEntry
    simp only [hzr, hpb, hvol, hpa]
    with_unfolding_all rfl

/-- Witness for C3's amended theorem: one concrete instantiation per
stage, all on the empty series. -/
theorem degraded_results_witness :
    (∃ t, getTrendAnalysis [] "COMPOSITE_TREND" [] = .ok t ∧
      t.core.bias = "NEUTRAL" ∧ t.core.strength = "WEAK" ∧
      t.core.confidence ≤ 40) ∧
    createZones [] "ATR_BASED" none = .ok [] ∧
    analyzePriceAction [] [] none "COMPREHENSIVE" = .ok noSignalPA ∧
    getEntrySignal [] [] "ZONE_REJECTION" = .ok (noEntry "ZONE_REJECTION") ∧
    getEntrySignal [] [] "PULLBACK_COMPLETION" = .ok (noEntry "PULLBACK_COMPLETION") ∧
    getEntrySignal [] [] "BREAKOUT_RETEST" = .ok (noEntry "BREAKOUT_RETEST") ∧
    getEntrySignal [] [] "CONFLUENCE_CONFIRMATION" =
      .ok (noEntry "CONFLUENCE_CONFIRMATION") :=
  ⟨degraded_results.1 "COMPOSITE_TREND" (by decide) [] (by decide),
   degraded_results.2.1 "ATR_BASED" (by decide) none,
   degraded_results.2.2.1 "COMPREHENSIVE" (by decide) [] [] none (by decide),
   degraded_results.2.2.2.1 [] [] (by decide),
   degraded_results.2.2.2.2.1 [] [] (by decide),
   degraded_results.2.2.2.2.2.1 [] [] (by decide),
   degraded_results.2.2.2.2.2.2 [] [] (by decide)⟩

/-! ## C8: unknown-method errors fail fast, and only they -/

/-- The only error `_calculate_rejection_confidence` can produce is the
NaN-to-int ValueError. -/
theorem calcRejectionConfidence_error_msg (c : Row) (z : Zone) (rj : RejectionSignal)
    (e : String) (h : calcRejectionConfidence c z rj = .error e) :
    e = "ValueError: cannot convert float NaN or infinity to integer" := by
  simp only [calcRejectionConfidence] at h
  split_ifs at h
  cases h
  rfl

/-- The only error the zone-rejection loop can produce is the confidence
ValueError. -/
theorem zrLoop_error_msg (latest prev : Row) (zones : List (String × Zone)) (e : String)
    (h : zrLoop latest prev zones = .error e) :
    e = "ValueError: cannot convert float NaN or infinity to integer" := by
  induction zones with
  | nil =>
    simp only [zrLoop] at h
    cases h
  | cons p rest ih =>
    obtain ⟨n, z⟩ := p
    simp only [zrLoop] at h
    split_ifs at h with hd
    · cases hc : calcRejectionConfidence latest z (detectZoneRejection latest prev z) with
      | ok c =>
        rw [hc] at h
        have h2 : (Except.ok (⟨"ENTRY", "ZONE_REJECTION", c, some n,
            some (detectZoneRejection latest prev z).direction⟩ : EntryResult) :
            Except String EntryResult) = .error e := h
        cases h2
      | error s =>
        rw [hc] at h
        have h2 : (Except.error s : Except String EntryResult) = .error e := h
        injection h2 with h3
        exact h3 ▸ calcRejectionConfidence_error_msg latest z _ s hc
    · exact ih h

/-- The only error the IMMEDIATE entry method can produce is the
IndexError on the empty series. -/
theorem immediateEntry_error_msg (df : List Row) (zones : List (String × Zone))
    (e : String) (h : immediateEntry df zones = .error e) :
    e = "IndexError: single positional indexer is out-of-bounds" := by
  unfold immediateEntry at h
  split at h
  · cases h
    rfl
  · split at h <;> cases h

/-- The only error the ZONE_REJECTION entry method can produce is the
confidence ValueError. -/
theorem zoneRejectionEntry_error_msg (df : List Row) (zones : List (String × Zone))
    (e : String) (h : zoneRejectionEntry df zones = .error e) :
    e = "ValueError: cannot convert float NaN or infinity to integer" := by
  unfold zoneRejectionEntry at h
  split_ifs at h
  split at h
  · exact zrLoop_error_msg _ _ zones e h
  · cases h

/-- The PULLBACK_COMPLETION entry method never errors. -/
theorem pullbackCompletionEntry_ne_error (df : List Row) (zones : List (String × Zone))
    (e : String) (h : pullbackCompletionEntry df zones = .error e) : False := by
  simp only [pullbackCompletionEntry] at h
  split at h
  · cases h
  · split at h
    · split at h <;> cases h
    · cases h

/-- The BREAKOUT_RETEST entry method never errors. -/
theorem breakoutRetestEntry_ne_error (df : List Row) (zones : List (String × Zone))
    (e : String) (h : breakoutRetestEntry df zones = .error e) : False := by
  simp only [breakoutRetestEntry] at h
  split at h <;> cases h

/-- A two-way fork into ok results cannot be an error. -/
theorem ite_ok_ne_error {c : Prop} [Decidable c] {r1 r2 : EntryResult} {e : String}
    (h : (if c then (Except.ok r1 : Except String EntryResult) else .ok r2) = .error e) :
    False := by
  split_ifs at h

/-- The only error the CONFLUENCE_CONFIRMATION entry method can produce
is the confidence ValueError propagated from the zone-rejection leg. -/
theorem confluenceConfirmationEntry_error_msg (df : List Row)
    (zones : List (String × Zone)) (e : String)
    (h : confluenceConfirmationEntry df zones = .error e) :
    e = "ValueError: cannot convert float NaN or infinity to integer" := by
  unfold confluenceConfirmationEntry at h
  cases hz : zoneRejectionEntry df zones with
  | error s =>
    rw [hz] at h
    have h2 : (Except.error s : Except String EntryResult) = .error e := h
    injection h2 with h3
    exact h3 ▸ zoneRejectionEntry_error_msg df zones s hz
  | ok zr =>
    rw [hz] at h
    cases hp : pullbackCompletionEntry df zones with
    | error s => exact (pullbackCompletionEntry_ne_error df zones s hp).elim
    | ok pb =>
      rw [hp] at h
      exact (ite_ok_ne_error h).elim

/-- C8: with an unrecognized method name, each of the four dispatchers
(zone builder, trend classifier, price-action matcher, entry-timing
selector) returns its explicit unknown-method error immediately, for
every input including the empty series; with a recognized name, the
first three never error at all, and the entry selector's only possible
errors are the IMMEDIATE IndexError and the rejection-confidence
ValueError — never an unknown-method error. -/
theorem unknown_method_fail_fast (m : String) :
    (∀ df : List Row, ∀ td, m ∉ zoneMethodNames →
      createZones df m td = .error ("Unknown zone method: " ++ m)) ∧
    (∀ df : List Row, ∀ td, m ∈ zoneMethodNames →
      ∃ r, createZones df m td = .ok r) ∧
    (∀ df : List Row, ∀ mtf, m ∉ trendMethodNames →
      getTrendAnalysis df m mtf = .error ("Unknown trend method: " ++ m)) ∧
    (∀ df : List Row, ∀ mtf, m ∈ trendMethodNames →
      ∃ r, getTrendAnalysis df m mtf = .ok r) ∧
    (∀ df : List Row, ∀ zones td, m ∉ paMethodNames →
      analyzePriceAction df zones td m =
        .error ("Unknown price action method: " ++ m)) ∧
    (∀ df : List Row, ∀ zones td, m ∈ paMethodNames →
      ∃ r, analyzePriceAction df zones td m = .ok r) ∧
    (∀ df : List Row, ∀ zones, m ∉ entryMethodNames →
      getEntrySignal df zones m = .error ("Unknown entry method: " ++ m)) ∧
    (∀ df : List Row, ∀ zones e, m ∈ entryMethodNames →
      getEntrySignal df zones m = .error e →
      e = "IndexError: single positional indexer is out-of-bounds" ∨
        e = "ValueError: cannot convert float NaN or infinity to integer") := by
  refine ⟨?_, ?_, ?_, ?_, ?_, ?_, ?_, ?_⟩
  · intro df td hm
    unfold createZones
    rw [if_neg hm]
  · intro df td hm
    unfold createZones
    rw [if_pos hm]
    by_cases hdf : df = []
    · rw [if_pos hdf]
      exact ⟨[], rfl⟩
    · rw [if_neg hdf]
      exact ⟨_, rfl⟩
  · intro df mtf hm
    unfold getTrendAnalysis
    rw [if_neg hm]
  · intro df mtf hm
    unfold getTrendAnalysis
    rw [if_pos hm]
    exact ⟨_, rfl⟩
  · intro df zones td hm
    unfold analyzePriceAction
    rw [if_neg hm]
  · intro df zones td hm
    unfold analyzePriceAction
    rw [if_pos hm]
    by_cases hdf : df.length < MIN_CANDLES_FOR_PATTERNS
    · rw [if_pos hdf]
      exact ⟨_, rfl⟩
    · rw [if_neg hdf]
      exact ⟨_, rfl⟩
  · intro df zones hm
    unfold getEntrySignal
    rw [if_neg hm]
  · intro df zones e hm herr
    unfold getEntrySignal at herr
    rw [if_pos hm] at herr
    simp only [entryMethodNames, List.mem_cons, List.not_mem_nil, or_false] at hm
    rcases hm with h | h | h | h | h
    all_goals subst h
    · simp only [entryDispatch] at herr
      exact Or.inl (immediateEntry_error_msg df zones e herr)
    · simp only [entryDispatch] at herr
      exact Or.inr (zoneRejectionEntry_error_msg df zones e herr)
    · simp only [entryDispatch] at herr
      exact (pullbackCompletionEntry_ne_error df zones e herr).elim
    · simp only [entryDispatch] at herr
      exact (breakoutRetestEntry_ne_error df zones e herr).elim
    · simp only [entryDispatch] at herr
      exact Or.inr (confluenceConfirmationEntry_error_msg df zones e herr)

/-- Witness for C8: the unrecognized name BOGUS fails fast on all four
dispatchers (on the empty series), each recognized-name component is
exercised once, and the one reachable recognized-name error (IMMEDIATE
on the empty series) is classified as the IndexError. -/
theorem unknown_method_fail_fast_witness :
    createZones [] "BOGUS" none = .error ("Unknown zone method: " ++ "BOGUS") ∧
    (∃ r, createZones [] "FIXED" none = .ok r) ∧
    getTrendAnalysis [] "BOGUS" [] = .error ("Unknown trend method: " ++ "BOGUS") ∧
    (∃ r, getTrendAnalysis [] "MA_ALIGNMENT" [] = .ok r) ∧
    analyzePriceAction [] [] none "BOGUS" =
      .error ("Unknown price action method: " ++ "BOGUS") ∧
    (∃ r, analyzePriceAction [] [] none "BASIC_PATTERNS" = .ok r) ∧
    getEntrySignal [] [] "BOGUS" = .error ("Unknown entry method: " ++ "BOGUS") ∧
    ("IndexError: single positional indexer is out-of-bounds" =
        "IndexError: single positional indexer is out-of-bounds" ∨
      "IndexError: single positional indexer is out-of-bounds" =
        "ValueError: cannot convert float NaN or infinity to integer") :=
  ⟨(unknown_method_fail_fast "BOGUS").1 [] none (by decide),
   (unknown_method_fail_fast "FIXED").2.1 [] none (by decide),
   (unknown_method_fail_fast "BOGUS").2.2.1 [] [] (by decide),
   (unknown_method_fail_fast "MA_ALIGNMENT").2.2.2.1 [] [] (by decide),
   (unknown_method_fail_fast "BOGUS").2.2.2.2.1 [] [] none (by decide),
   (unknown_method_fail_fast "BASIC_PATTERNS").2.2.2.2.2.1 [] [] none (by decide),
   (unknown_method_fail_fast "BOGUS").2.2.2.2.2.2.1 [] [] (by decide),
   (unknown_method_fail_fast "IMMEDIATE").2.2.2.2.2.2.2 [] []
     "IndexError: single positional indexer is out-of-bounds" (by decide)
     (by with_unfolding_all rfl)⟩
